import Mathlib

/-!
# chunkymonkey: player session and workbench inventory

A shallow embedding of two source files of the chunkymonkey server:

* `src/pkg/chunkymonkey/player/player.go` (namespace `player`),
* `src/chunkymonkey/block/workbench_aspect.go` (namespace `block`).

Every function is a pure function from the state before the call to the state
after it together with the list of calls it made on its collaborators, in
program order.  Collaborators whose code lives in other packages (the
subscription tracker, the window and inventory packages, the packet writers,
the floating point unit) are parameters of the embedding.
-/

namespace Chunkymonkey

/-! ## Types of the `types`, `slot` and `proto` packages -/

abbrev EntityId := Int
abbrev WindowId := Int
abbrev SlotId := Int
abbrev TxId := Int
abbrev ItemTypeId := Int
abbrev ItemCount := Int
abbrev ItemData := Int
abbrev InvTypeId := Int

/-- Block position in the world. -/
structure BlockXyz where
  X : Int
  Y : Int
  Z : Int
deriving DecidableEq, Repr

/-- Position of a block inside its chunk. -/
structure SubChunkXyz where
  X : Int
  Y : Int
  Z : Int
deriving DecidableEq, Repr

/-- Position of a chunk in the world. -/
structure ChunkXz where
  X : Int
  Z : Int
deriving DecidableEq, Repr

abbrev DigStatus := Int
abbrev Face := Int
abbrev PrgBarId := Int
abbrev PrgBarValue := Int

/-- Outcome of a click on an inventory window. -/
inductive TxState where
  | TxStateAccepted
  | TxStateRejected
  | TxStateDeferred
deriving DecidableEq, Repr

/-- The record `slot.Slot` over the type `IT` of pointers to item types (the
nil pointer included). -/
structure Slot (IT : Type) where
  ItemType : IT
  Count : ItemCount
  Data : ItemData
deriving DecidableEq, Repr

/-- The record `proto.WindowSlot`. -/
structure WindowSlot where
  ItemTypeId : ItemTypeId
  Count : ItemCount
  Data : ItemData
deriving DecidableEq, Repr

/-- A run-time panic of the Go program. -/
inductive Panic where
  | nilDereference
  | nilMapAssignment
  | indexOutOfRange
deriving DecidableEq, Repr

/-! ## Go maps -/

/-- A Go map: `none` is the nil map, `some l` an allocated map holding the
entries of `l`.  The order of `l` stands for the (unspecified) iteration
order of `range`. -/
abbrev GoMap (κ ν : Type) := Option (List (κ × ν))

namespace GoMap

variable {κ ν : Type}

/-- The entries visited by `range m`; a nil map has none. -/
def entries (m : GoMap κ ν) : List (κ × ν) := m.getD []

/-- Go `len(m)` -/
def len (m : GoMap κ ν) : Nat := (entries m).length

/-- Go `m[k] = nil, false` (the delete statement); a no-op on a missing key. -/
def delete [DecidableEq κ] (m : GoMap κ ν) (k : κ) : GoMap κ ν :=
  m.map (List.filter (fun e => decide (e.1 ≠ k)))

/-- Go `m[k] = v`; assignment to an entry of the nil map panics. -/
def insert [DecidableEq κ] (m : GoMap κ ν) (k : κ) (v : ν) : Except Panic (GoMap κ ν) :=
  match m with
  | none => Except.error Panic.nilMapAssignment
  | some l => Except.ok (some ((k, v) :: l.filter (fun e => decide (e.1 ≠ k))))

/-- Go `m[k]` with the comma-ok form. -/
def lookup [DecidableEq κ] (m : GoMap κ ν) (k : κ) : Option ν :=
  ((entries m).find? (fun e => decide (e.1 = k))).map Prod.snd

/-- Keys of a map are pairwise distinct. -/
def KeysDistinct (m : GoMap κ ν) : Prop := ((entries m).map Prod.fst).Nodup

end GoMap

/-! ## Package `player` -/

namespace player

/-- The value `AbsXyz` over a coordinate type `F` (`AbsCoord`). -/
structure AbsXyz (F : Type) where
  X : F
  Y : F
  Z : F
deriving DecidableEq, Repr

/-- The value `LookDegrees` -/
structure LookDegrees (F : Type) where
  Yaw : F
  Pitch : F
deriving DecidableEq, Repr

/-- Types that `player.go` uses and other packages declare. -/
structure Externals where
  /-- Go `AbsCoord`, a 64 bit float -/
  AbsCoord : Type
  /-- State of `chunkSubscriptions` -/
  ChunkSubs : Type
  /-- State of `window.PlayerInventory` -/
  PlayerInventory : Type
  /-- State of an implementation of `window.IWindow` -/
  Window : Type
  /-- State of `RemoteInventory` -/
  RemoteInventory : Type
  /-- Pointers to `gamerules.ItemType`, the nil pointer included -/
  ItemType : Type
  /-- Comparison of two item type pointers -/
  decEqItemType : DecidableEq ItemType
  /-- A shard client of the subscription tracker -/
  ShardClient : Type

instance (σ : Externals) : DecidableEq σ.ItemType := σ.decEqItemType

/-- One call of a packet writer on a `bytes.Buffer`. -/
inductive Written (σ : Externals) where
  | windowTransaction (windowId : WindowId) (txId : TxId) (accepted : Bool)
  | slotUpdate (slot : Slot σ.ItemType) (windowId : WindowId) (slotId : SlotId)
  | windowOpen (w : σ.Window)
  | windowItems (w : σ.Window)
  | entityLook (entityId : EntityId) (look : LookDegrees σ.AbsCoord)
  | chatMessage (message : String)

/-- Contents of a `bytes.Buffer`: the writes made on it, oldest first. -/
abbrev Buffer (σ : Externals) := List (Written σ)

/-- Go `buf.Bytes()`: nil for a buffer nothing was written to.  Every packet
writer emits at least the packet id, so a buffer with a write is not nil. -/
def Buffer.Bytes {σ : Externals} (buf : Buffer σ) : Option (List (Written σ)) :=
  if buf.isEmpty then none else some buf

/-- The calls `player.go` makes on its collaborators and channels. -/
inductive Event (σ : Externals) where
  /-- Go `log.Printf` and `log.Print` -/
  | log
  /-- Go `player.chunkSubs.Move(position)` -/
  | chunkSubsMove (position : AbsXyz σ.AbsCoord)
  /-- Go `player.txQueue <- payload`; `none` is the nil payload -/
  | txQueueSend (payload : Option (List (Written σ)))
  /-- Go `window.Finalize(sendClosePacket)` -/
  | windowFinalize (w : σ.Window) (sendClosePacket : Bool)
  /-- Go `remoteInv.Close()` -/
  | remoteInvClose (ri : σ.RemoteInventory)
  /-- Go `player.inventory.Resubscribe()` -/
  | inventoryResubscribe
  /-- Go `player.inventory.Click(...)`, the inventory taken as a window -/
  | inventoryClick (slotId : SlotId) (cursor : Slot σ.ItemType) (rightClick shiftClick : Bool)
      (txId : TxId) (expectedSlot : Slot σ.ItemType)
  /-- Go `player.curWindow.Click(...)` -/
  | windowClick (w : σ.Window) (slotId : SlotId) (cursor : Slot σ.ItemType)
      (rightClick shiftClick : Bool) (txId : TxId) (expectedSlot : Slot σ.ItemType)
  /-- Go `NewRemoteInventory(block, &player.chunkSubs, slots)` -/
  | newRemoteInventory (block : BlockXyz) (slots : List WindowSlot)
  /-- Go `player.inventory.NewWindow(invTypeId, windowId, remoteInv)` and the
  window it returned, `none` for nil -/
  | newWindow (invTypeId : InvTypeId) (windowId : WindowId) (ri : σ.RemoteInventory)
      (result : Option σ.Window)
  /-- Go `player.chunkSubs.curShard.ReqMulticastPlayers(curChunkLoc, exclude, payload)` -/
  | ReqMulticastPlayers (chunkLoc : ChunkXz) (exclude : EntityId)
      (payload : Option (List (Written σ)))
  /-- Go `shardClient.ReqHitBlock(held, target, status, face)` -/
  | ReqHitBlock (shardClient : σ.ShardClient) (held : Slot σ.ItemType) (target : BlockXyz)
      (status : DigStatus) (face : Face)
  /-- Go `shardClient.ReqInteractBlock(held, target, face)` -/
  | ReqInteractBlock (shardClient : σ.ShardClient) (held : Slot σ.ItemType) (target : BlockXyz)
      (face : Face)
  /-- Go `shardClient.ReqPlaceItem(target, into)` -/
  | ReqPlaceItem (shardClient : σ.ShardClient) (target : BlockXyz) (into : Slot σ.ItemType)
  /-- Go `shardClient.ReqTakeItem(fromChunk, entityId)` -/
  | ReqTakeItem (shardClient : σ.ShardClient) (fromChunk : ChunkXz) (entityId : EntityId)
  /-- Go `shardClient.ReqDropItem(item, atPosition, AbsVelocity{})` -/
  | ReqDropItem (shardClient : σ.ShardClient) (item : Slot σ.ItemType)
      (atPosition : AbsXyz σ.AbsCoord)
  /-- Go `player.inventory.SetHolding(slotId)` -/
  | inventorySetHolding (slotId : SlotId)
  /-- Go `player.inventory.TakeOneHeldItem(&into)` -/
  | inventoryTakeOneHeldItem
  /-- Go `player.inventory.PutItem(item)` -/
  | inventoryPutItem (item : Slot σ.ItemType)
  /-- Go `player.remoteInv.slotUpdate(slot, slotId)` -/
  | remoteInvSlotUpdate (ri : σ.RemoteInventory) (slot : Slot σ.ItemType) (slotId : SlotId)
  /-- Go `player.remoteInv.progressUpdate(prgBarId, value)` -/
  | remoteInvProgressUpdate (ri : σ.RemoteInventory) (prgBarId : PrgBarId) (value : PrgBarValue)
  /-- Go `player.onDisconnect <- player.EntityId` -/
  | onDisconnectSend (entityId : EntityId)
  /-- Go `player.mainQueue <- nil` -/
  | mainQueueSendNil
  /-- Go `player.conn.Close()` -/
  | connClose
  /-- Go `player.conn.Write(bs)` -/
  | connWrite (bs : List (Written σ))
  /-- Go `runCommand(player, message)` -/
  | runCommand (message : String)

/-- The fields of `Player` that the handlers below read or write.  The
channels and the connection appear as events, `lock` is held for the whole of
every handler and is not a field. -/
structure Player (σ : Externals) where
  EntityId : EntityId
  name : String
  position : AbsXyz σ.AbsCoord
  look : LookDegrees σ.AbsCoord
  chunkSubs : σ.ChunkSubs
  cursor : Slot σ.ItemType
  inventory : σ.PlayerInventory
  curWindow : Option σ.Window
  nextWindowId : WindowId
  remoteInv : Option σ.RemoteInventory
  /-- Go `gameRules.ItemTypes[id]` in the comma-ok form: `none` when the id
  is not a key of the map -/
  ItemTypes : ItemTypeId → Option σ.ItemType

/-- What a `Click` on a window reports and leaves behind. -/
structure ClickResult (σ : Externals) (W : Type) where
  txState : TxState
  cursor : Slot σ.ItemType
  inventory : σ.PlayerInventory
  window : W

/-- Code of other packages that `player.go` calls. -/
structure Env (σ : Externals) where
  /-- Subtraction of `AbsCoord` -/
  sub : σ.AbsCoord → σ.AbsCoord → σ.AbsCoord
  /-- Addition of `AbsCoord` -/
  add : σ.AbsCoord → σ.AbsCoord → σ.AbsCoord
  /-- Multiplication of `AbsCoord` -/
  mul : σ.AbsCoord → σ.AbsCoord → σ.AbsCoord
  /-- Go `math.Sqrt(float64(x))` -/
  sqrt : σ.AbsCoord → σ.AbsCoord
  /-- The comparison `x > 10` -/
  gtTen : σ.AbsCoord → Bool
  /-- Zero of `AbsCoord` -/
  zero : σ.AbsCoord
  /-- Go `chunkSubscriptions.Move` -/
  chunkSubsMove : σ.ChunkSubs → AbsXyz σ.AbsCoord → σ.ChunkSubs
  /-- Go `WindowIdInventory` -/
  WindowIdInventory : WindowId
  /-- Go `WindowIdCursor` -/
  WindowIdCursor : WindowId
  /-- Go `WindowIdFreeMin` -/
  WindowIdFreeMin : WindowId
  /-- Go `WindowIdFreeMax` -/
  WindowIdFreeMax : WindowId
  /-- Go `SlotIdCursor` -/
  SlotIdCursor : SlotId
  /-- Go `IWindow.GetWindowId` -/
  GetWindowId : σ.Window → WindowId
  /-- Go `Slot.Normalize` -/
  Normalize : Slot σ.ItemType → Slot σ.ItemType
  /-- Go `Slot.Init`, the empty slot -/
  emptySlot : Slot σ.ItemType
  /-- Go `PlayerInventory.Click` -/
  inventoryClick : σ.PlayerInventory → SlotId → Slot σ.ItemType → Bool → Bool → TxId →
    Slot σ.ItemType → ClickResult σ Unit
  /-- Go `IWindow.Click` of the open window -/
  windowClick : σ.Window → σ.PlayerInventory → SlotId → Slot σ.ItemType → Bool → Bool → TxId →
    Slot σ.ItemType → ClickResult σ σ.Window
  /-- Go `IWindow.Finalize`, its effect on the player inventory the window views -/
  windowFinalize : σ.Window → Bool → σ.PlayerInventory → σ.PlayerInventory
  /-- Go `PlayerInventory.Resubscribe` -/
  Resubscribe : σ.PlayerInventory → σ.PlayerInventory
  /-- Go `NewRemoteInventory` -/
  NewRemoteInventory : BlockXyz → σ.ChunkSubs → List WindowSlot → σ.RemoteInventory
  /-- Go `PlayerInventory.NewWindow`: the window, `none` for nil, and the
  inventory it leaves -/
  NewWindow : σ.PlayerInventory → InvTypeId → WindowId → σ.RemoteInventory →
    Option σ.Window × σ.PlayerInventory
  /-- Go `RemoteInventory.IsForBlock` -/
  IsForBlock : σ.RemoteInventory → BlockXyz → Bool
  /-- Go `PlayerInventory.Init` on a fresh inventory -/
  initInventory : EntityId → σ.PlayerInventory
  /-- Go `chunkSubscriptions` of a player that has not started -/
  initChunkSubs : σ.ChunkSubs
  /-- Go `player.chunkSubs.curChunkLoc` -/
  curChunkLoc : σ.ChunkSubs → ChunkXz
  /-- Go `chunkSubscriptions.ShardClientForBlockXyz`; `none` when `ok` is false -/
  ShardClientForBlockXyz : σ.ChunkSubs → BlockXyz → Option σ.ShardClient
  /-- Go `chunkSubscriptions.ShardClientForChunkXz`; `none` when `ok` is false -/
  ShardClientForChunkXz : σ.ChunkSubs → ChunkXz → Option σ.ShardClient
  /-- Go `AbsXyz.ToChunkXz` -/
  ToChunkXz : AbsXyz σ.AbsCoord → ChunkXz
  /-- Go `FaceMinValid` -/
  FaceMinValid : Face
  /-- Go `FaceMaxValid` -/
  FaceMaxValid : Face
  /-- Go `PlayerInventory.HeldItem`, the slot held -/
  HeldItem : σ.PlayerInventory → Slot σ.ItemType
  /-- Go `PlayerInventory.SetHolding` -/
  SetHolding : σ.PlayerInventory → SlotId → σ.PlayerInventory
  /-- Go `PlayerInventory.TakeOneHeldItem(&into)`: the inventory and `into`
  after the call -/
  TakeOneHeldItem : σ.PlayerInventory → Slot σ.ItemType → σ.PlayerInventory × Slot σ.ItemType
  /-- Go `PlayerInventory.CanTakeItem` -/
  CanTakeItem : σ.PlayerInventory → Slot σ.ItemType → Bool
  /-- Go `PlayerInventory.PutItem(item)`: the inventory and `item` after the
  call -/
  PutItem : σ.PlayerInventory → Slot σ.ItemType → σ.PlayerInventory × Slot σ.ItemType
  /-- Go `RemoteInventory.slotUpdate` -/
  slotUpdate : σ.RemoteInventory → Slot σ.ItemType → SlotId → σ.RemoteInventory
  /-- Go `RemoteInventory.progressUpdate` -/
  progressUpdate : σ.RemoteInventory → PrgBarId → PrgBarValue → σ.RemoteInventory
  /-- Go `runCommand(player, message)`, the player it leaves -/
  runCommand : Player σ → String → Player σ

variable {σ : Externals}

/-- The distance `PacketPlayerPosition` computes between the reported position
and the last accepted one: the square root of the sum of the squared
coordinate differences, in the arithmetic of `AbsCoord`. -/
def distance (env : Env σ) (position last : AbsXyz σ.AbsCoord) : σ.AbsCoord :=
  let delta : AbsXyz σ.AbsCoord :=
    ⟨env.sub position.X last.X, env.sub position.Y last.Y, env.sub position.Z last.Z⟩
  env.sqrt (env.add (env.add (env.mul delta.X delta.X) (env.mul delta.Y delta.Y))
    (env.mul delta.Z delta.Z))

/-- The arithmetic of `AbsCoord` is exact when coordinates are read as real
numbers by `val`: subtraction, addition and multiplication are those of the
reals, and the test `math.Sqrt(x) > 10` holds exactly when the real square
root of `x` exceeds 10.  Rounding of 64 bit floats is left out. -/
structure ExactArithmetic (env : Env σ) (val : σ.AbsCoord → ℝ) : Prop where
  sub : ∀ a b, val (env.sub a b) = val a - val b
  add : ∀ a b, val (env.add a b) = val a + val b
  mul : ∀ a b, val (env.mul a b) = val a * val b
  sqrtGtTen : ∀ x, env.gtTen (env.sqrt x) = true ↔ 10 < Real.sqrt (val x)

/-- Go `Player.PacketPlayerPosition` -/
def PacketPlayerPosition (env : Env σ) (p : Player σ) (position : AbsXyz σ.AbsCoord)
    (_stance : σ.AbsCoord) (_onGround : Bool) : Player σ × List (Event σ) :=
  if env.gtTen (distance env position p.position) then
    (p, [Event.log])
  else
    ({ p with position := position, chunkSubs := env.chunkSubsMove p.chunkSubs position },
      [Event.chunkSubsMove position])

/-- Go `Player.TransmitPacket`: a nil packet is skipped, any other is put on
`txQueue`. -/
def TransmitPacket (packet : Option (List (Written σ))) : List (Event σ) :=
  match packet with
  | none => []
  | some bs => [Event.txQueueSend (some bs)]

/-- Go `Player.closeCurrentWindow` -/
def closeCurrentWindow (env : Env σ) (p : Player σ) (sendClosePacket : Bool) :
    Player σ × List (Event σ) :=
  let r1 : Player σ × List (Event σ) :=
    match p.curWindow with
    | some w =>
      ({ p with inventory := env.windowFinalize w sendClosePacket p.inventory, curWindow := none },
        [Event.windowFinalize w sendClosePacket])
    | none => (p, [])
  let r2 : Player σ × List (Event σ) :=
    match r1.1.remoteInv with
    | some ri => ({ r1.1 with remoteInv := none }, r1.2 ++ [Event.remoteInvClose ri])
    | none => r1
  ({ r2.1 with inventory := env.Resubscribe r2.1.inventory }, r2.2 ++ [Event.inventoryResubscribe])

/-- Go `Player.PacketWindowClose` -/
def PacketWindowClose (env : Env σ) (p : Player σ) (_windowId : WindowId) :
    Player σ × List (Event σ) :=
  closeCurrentWindow env p false

/-- The value of `clickedWindow` in `PacketWindowClick`. -/
inductive ClickedWindow (σ : Externals) where
  /-- The nil window: no window has the clicked id -/
  | unknown
  /-- Go `&player.inventory` -/
  | inventory
  /-- Go `player.curWindow` -/
  | curWindow (w : σ.Window)

/-- The window `PacketWindowClick` selects for `windowId`, and whether the
warning for an unknown id is logged. -/
def selectWindow (env : Env σ) (p : Player σ) (windowId : WindowId) :
    ClickedWindow σ × List (Event σ) :=
  if windowId = env.WindowIdInventory then
    (ClickedWindow.inventory, [])
  else
    match p.curWindow with
    | some w =>
      if env.GetWindowId w = windowId then (ClickedWindow.curWindow w, [])
      else (ClickedWindow.unknown, [Event.log])
    | none => (ClickedWindow.unknown, [Event.log])

/-- The click `PacketWindowClick` makes on the selected window: the
transaction state, the player after the click and the call made.  With no
window the state stays `TxStateRejected` and nothing is called. -/
def clickWindow (env : Env σ) (p : Player σ) (clickedWindow : ClickedWindow σ)
    (slotId : SlotId) (rightClick shiftClick : Bool) (txId : TxId)
    (expectedSlotContent : Slot σ.ItemType) : TxState × Player σ × List (Event σ) :=
  match clickedWindow with
  | ClickedWindow.unknown => (TxState.TxStateRejected, p, [])
  | ClickedWindow.inventory =>
    let r := env.inventoryClick p.inventory slotId p.cursor rightClick shiftClick txId
      expectedSlotContent
    (r.txState, { p with cursor := r.cursor, inventory := r.inventory },
      [Event.inventoryClick slotId p.cursor rightClick shiftClick txId expectedSlotContent])
  | ClickedWindow.curWindow w =>
    let r := env.windowClick w p.inventory slotId p.cursor rightClick shiftClick txId
      expectedSlotContent
    (r.txState, { p with cursor := r.cursor, inventory := r.inventory, curWindow := some r.window },
      [Event.windowClick w slotId p.cursor rightClick shiftClick txId expectedSlotContent])

/-- The reply `PacketWindowClick` builds after an accepted or rejected click:
one buffer holding the transaction status and then the cursor update. -/
def clickReply (env : Env σ) (windowId : WindowId) (txId : TxId) (txState : TxState)
    (cursor : Slot σ.ItemType) : Buffer σ :=
  [Written.windowTransaction windowId txId (decide (txState = TxState.TxStateAccepted)),
    Written.slotUpdate cursor env.WindowIdCursor env.SlotIdCursor]

/-- Go `Player.PacketWindowClick` -/
def PacketWindowClick (env : Env σ) (p : Player σ) (windowId : WindowId) (slotId : SlotId)
    (rightClick : Bool) (txId : TxId) (shiftClick : Bool) (expectedSlot : WindowSlot) :
    Player σ × List (Event σ) :=
  let sel := selectWindow env p windowId
  match p.ItemTypes expectedSlot.ItemTypeId with
  | none => (p, sel.2)
  | some expectedItemType =>
    let expectedSlotContent : Slot σ.ItemType :=
      env.Normalize ⟨expectedItemType, expectedSlot.Count, expectedSlot.Data⟩
    let r := clickWindow env p sel.1 slotId rightClick shiftClick txId expectedSlotContent
    match r.1 with
    | TxState.TxStateDeferred => (r.2.1, sel.2 ++ r.2.2)
    | txState =>
      (r.2.1, sel.2 ++ r.2.2 ++
        TransmitPacket (Buffer.Bytes (clickReply env windowId txId txState r.2.1.cursor)))

/-- Wrap-around of an 8 bit signed integer, the width of a window id on the
wire. -/
def wrapInt8 (n : Int) : Int := (n + 128) % 256 - 128

/-- Go `Player.reqInventorySubscribed` -/
def reqInventorySubscribed (env : Env σ) (p : Player σ) (block : BlockXyz)
    (invTypeId : InvTypeId) (slots : List WindowSlot) : Player σ × List (Event σ) :=
  let r1 : Player σ × List (Event σ) :=
    match p.remoteInv with
    | some _ => closeCurrentWindow env p true
    | none => (p, [])
  let remoteInv := env.NewRemoteInventory block r1.1.chunkSubs slots
  let nw := env.NewWindow r1.1.inventory invTypeId r1.1.nextWindowId remoteInv
  let calls : List (Event σ) :=
    r1.2 ++ [Event.newRemoteInventory block slots,
      Event.newWindow invTypeId r1.1.nextWindowId remoteInv nw.1]
  match nw.1 with
  | none => ({ r1.1 with inventory := nw.2 }, calls)
  | some window =>
    ({ r1.1 with
        inventory := nw.2
        remoteInv := some remoteInv
        curWindow := some window
        nextWindowId :=
          if r1.1.nextWindowId ≥ env.WindowIdFreeMax then env.WindowIdFreeMin
          else wrapInt8 (r1.1.nextWindowId + 1) },
      calls ++ TransmitPacket (Buffer.Bytes [Written.windowOpen window, Written.windowItems window]))

/-- Go `Player.reqInventoryUnsubscribed` -/
def reqInventoryUnsubscribed (env : Env σ) (p : Player σ) (block : BlockXyz) :
    Player σ × List (Event σ) :=
  match p.remoteInv with
  | none => (p, [])
  | some ri => if env.IsForBlock ri block then closeCurrentWindow env p true else (p, [])

/-- Go `NewPlayer`: the fields the literal leaves out are zero values (a nil
`remoteInv`), the cursor and the inventory are initialised. -/
def NewPlayer (env : Env σ) (entityId : EntityId) (itemTypes : ItemTypeId → Option σ.ItemType)
    (name : String) (position : AbsXyz σ.AbsCoord) : Player σ :=
  { EntityId := entityId
    name := name
    position := position
    look := ⟨env.zero, env.zero⟩
    chunkSubs := env.initChunkSubs
    cursor := env.emptySlot
    inventory := env.initInventory entityId
    curWindow := none
    nextWindowId := env.WindowIdFreeMin
    remoteInv := none
    ItemTypes := itemTypes }

/-- Go `Player.sendChatMessage` -/
def sendChatMessage (env : Env σ) (p : Player σ) (message : String) : List (Event σ) :=
  [Event.ReqMulticastPlayers (env.curChunkLoc p.chunkSubs) p.EntityId
    (Buffer.Bytes [Written.chatMessage message])]

/-- Go `Player.PacketPlayerLook` -/
def PacketPlayerLook (env : Env σ) (p : Player σ) (look : LookDegrees σ.AbsCoord)
    (_onGround : Bool) : Player σ × List (Event σ) :=
  ({ p with look := look },
    [Event.ReqMulticastPlayers (env.curChunkLoc p.chunkSubs) p.EntityId
      (Buffer.Bytes [Written.entityLook p.EntityId look])])

/-- Go `Player.PacketPlayerBlockHit` -/
def PacketPlayerBlockHit (env : Env σ) (p : Player σ) (status : DigStatus) (target : BlockXyz)
    (face : Face) : Player σ × List (Event σ) :=
  match env.ShardClientForBlockXyz p.chunkSubs target with
  | some shardClient =>
    (p, [Event.ReqHitBlock shardClient (env.HeldItem p.inventory) target status face])
  | none => (p, [])

/-- Go `Player.PacketPlayerBlockInteract` -/
def PacketPlayerBlockInteract (env : Env σ) (p : Player σ) (_itemId : ItemTypeId)
    (target : BlockXyz) (face : Face) (_amount : ItemCount) (_uses : ItemData) :
    Player σ × List (Event σ) :=
  if face < env.FaceMinValid ∨ face > env.FaceMaxValid then
    (p, [Event.log])
  else
    match env.ShardClientForBlockXyz p.chunkSubs target with
    | some shardClient =>
      (p, [Event.ReqInteractBlock shardClient (env.HeldItem p.inventory) target face])
    | none => (p, [])

/-- Go `Player.PacketHoldingChange` -/
def PacketHoldingChange (env : Env σ) (p : Player σ) (slotId : SlotId) :
    Player σ × List (Event σ) :=
  ({ p with inventory := env.SetHolding p.inventory slotId }, [Event.inventorySetHolding slotId])

/-- Go `Player.PacketDisconnect` -/
def PacketDisconnect (env : Env σ) (p : Player σ) (_reason : String) :
    Player σ × List (Event σ) :=
  (p, [Event.log] ++ sendChatMessage env p (p.name ++ " has left") ++
    [Event.onDisconnectSend p.EntityId, Event.txQueueSend none, Event.mainQueueSendNil,
      Event.connClose])

/-- Go `Player.reqInventorySlotUpdate` -/
def reqInventorySlotUpdate (env : Env σ) (p : Player σ) (block : BlockXyz)
    (slot : Slot σ.ItemType) (slotId : SlotId) : Player σ × List (Event σ) :=
  match p.remoteInv with
  | none => (p, [])
  | some ri =>
    if env.IsForBlock ri block then
      ({ p with remoteInv := some (env.slotUpdate ri slot slotId) },
        [Event.remoteInvSlotUpdate ri slot slotId])
    else (p, [])

/-- Go `Player.reqInventoryProgressUpdate` -/
def reqInventoryProgressUpdate (env : Env σ) (p : Player σ) (block : BlockXyz)
    (prgBarId : PrgBarId) (value : PrgBarValue) : Player σ × List (Event σ) :=
  match p.remoteInv with
  | none => (p, [])
  | some ri =>
    if env.IsForBlock ri block then
      ({ p with remoteInv := some (env.progressUpdate ri prgBarId value) },
        [Event.remoteInvProgressUpdate ri prgBarId value])
    else (p, [])

/-- Go `Player.reqInventoryCursorUpdate` -/
def reqInventoryCursorUpdate (env : Env σ) (p : Player σ) (block : BlockXyz)
    (cursor : Slot σ.ItemType) : Player σ × List (Event σ) :=
  match p.remoteInv with
  | none => (p, [])
  | some ri =>
    if env.IsForBlock ri block then
      ({ p with cursor := cursor },
        TransmitPacket (Buffer.Bytes
          [Written.slotUpdate cursor env.WindowIdCursor env.SlotIdCursor]))
    else (p, [])

/-- Go `Player.reqInventoryTxState` -/
def reqInventoryTxState (env : Env σ) (p : Player σ) (block : BlockXyz) (txId : TxId)
    (accepted : Bool) : Player σ × List (Event σ) :=
  match p.remoteInv with
  | none => (p, [])
  | some ri =>
    if env.IsForBlock ri block then
      match p.curWindow with
      | none => (p, [])
      | some w =>
        (p, TransmitPacket (Buffer.Bytes
          [Written.windowTransaction (env.GetWindowId w) txId accepted]))
    else (p, [])

/-- Go `Player.reqPlaceHeldItem` -/
def reqPlaceHeldItem (env : Env σ) (p : Player σ) (target : BlockXyz)
    (wasHeld : Slot σ.ItemType) : Player σ × List (Event σ) :=
  let curHeld := env.HeldItem p.inventory
  if curHeld.ItemType ≠ wasHeld.ItemType ∨ curHeld.Data ≠ wasHeld.Data then
    (p, [])
  else
    match env.ShardClientForBlockXyz p.chunkSubs target with
    | some shardClient =>
      let taken := env.TakeOneHeldItem p.inventory env.emptySlot
      ({ p with inventory := taken.1 },
        [Event.inventoryTakeOneHeldItem, Event.ReqPlaceItem shardClient target taken.2])
    | none => (p, [])

/-- Go `Player.reqOfferItem` -/
def reqOfferItem (env : Env σ) (p : Player σ) (fromChunk : ChunkXz) (entityId : EntityId)
    (item : Slot σ.ItemType) : Player σ × List (Event σ) :=
  if env.CanTakeItem p.inventory item then
    match env.ShardClientForChunkXz p.chunkSubs fromChunk with
    | some shardClient => (p, [Event.ReqTakeItem shardClient fromChunk entityId])
    | none => (p, [])
  else (p, [])

/-- Go `Player.reqGiveItem`: the player, the item as the call leaves it for
the caller, and the calls made. -/
def reqGiveItem (env : Env σ) (p : Player σ) (atPosition : AbsXyz σ.AbsCoord)
    (item : Slot σ.ItemType) : Player σ × Slot σ.ItemType × List (Event σ) :=
  let put := env.PutItem p.inventory item
  let p1 : Player σ := { p with inventory := put.1 }
  if put.2.Count > 0 then
    match env.ShardClientForChunkXz p1.chunkSubs (env.ToChunkXz atPosition) with
    | some shardClient =>
      (p1, put.2, [Event.inventoryPutItem item, Event.ReqDropItem shardClient put.2 atPosition])
    | none => (p1, put.2, [Event.inventoryPutItem item])
  else (p1, put.2, [Event.inventoryPutItem item])

/-- A call on a player that is serialised by `player.lock` or by the main
loop. -/
inductive Call (σ : Externals) where
  | PacketPlayerLook (look : LookDegrees σ.AbsCoord) (onGround : Bool)
  | PacketPlayerBlockHit (status : DigStatus) (target : BlockXyz) (face : Face)
  | PacketPlayerBlockInteract (itemId : ItemTypeId) (target : BlockXyz) (face : Face)
      (amount : ItemCount) (uses : ItemData)
  | PacketHoldingChange (slotId : SlotId)
  | PacketDisconnect (reason : String)
  | reqInventorySlotUpdate (block : BlockXyz) (slot : Slot σ.ItemType) (slotId : SlotId)
  | reqInventoryProgressUpdate (block : BlockXyz) (prgBarId : PrgBarId) (value : PrgBarValue)
  | reqInventoryCursorUpdate (block : BlockXyz) (cursor : Slot σ.ItemType)
  | reqInventoryTxState (block : BlockXyz) (txId : TxId) (accepted : Bool)
  | reqPlaceHeldItem (target : BlockXyz) (wasHeld : Slot σ.ItemType)
  | reqOfferItem (fromChunk : ChunkXz) (entityId : EntityId) (item : Slot σ.ItemType)
  | reqGiveItem (atPosition : AbsXyz σ.AbsCoord) (item : Slot σ.ItemType)
  | PacketPlayerPosition (position : AbsXyz σ.AbsCoord) (stance : σ.AbsCoord) (onGround : Bool)
  | PacketWindowClose (windowId : WindowId)
  | PacketWindowClick (windowId : WindowId) (slotId : SlotId) (rightClick : Bool) (txId : TxId)
      (shiftClick : Bool) (expectedSlot : WindowSlot)
  | reqInventorySubscribed (block : BlockXyz) (invTypeId : InvTypeId) (slots : List WindowSlot)
  | reqInventoryUnsubscribed (block : BlockXyz)
  | closeCurrentWindow (sendClosePacket : Bool)

/-- The player and the calls made after one serialised call. -/
def step (env : Env σ) (p : Player σ) : Call σ → Player σ × List (Event σ)
  | Call.PacketPlayerPosition position stance onGround =>
    PacketPlayerPosition env p position stance onGround
  | Call.PacketWindowClose windowId => PacketWindowClose env p windowId
  | Call.PacketWindowClick windowId slotId rightClick txId shiftClick expectedSlot =>
    PacketWindowClick env p windowId slotId rightClick txId shiftClick expectedSlot
  | Call.reqInventorySubscribed block invTypeId slots =>
    reqInventorySubscribed env p block invTypeId slots
  | Call.reqInventoryUnsubscribed block => reqInventoryUnsubscribed env p block
  | Call.closeCurrentWindow sendClosePacket => closeCurrentWindow env p sendClosePacket
  | Call.PacketPlayerLook look onGround => PacketPlayerLook env p look onGround
  | Call.PacketPlayerBlockHit status target face => PacketPlayerBlockHit env p status target face
  | Call.PacketPlayerBlockInteract itemId target face amount uses =>
    PacketPlayerBlockInteract env p itemId target face amount uses
  | Call.PacketHoldingChange slotId => PacketHoldingChange env p slotId
  | Call.PacketDisconnect reason => PacketDisconnect env p reason
  | Call.reqInventorySlotUpdate block slot slotId => reqInventorySlotUpdate env p block slot slotId
  | Call.reqInventoryProgressUpdate block prgBarId value =>
    reqInventoryProgressUpdate env p block prgBarId value
  | Call.reqInventoryCursorUpdate block cursor => reqInventoryCursorUpdate env p block cursor
  | Call.reqInventoryTxState block txId accepted => reqInventoryTxState env p block txId accepted
  | Call.reqPlaceHeldItem target wasHeld => reqPlaceHeldItem env p target wasHeld
  | Call.reqOfferItem fromChunk entityId item => reqOfferItem env p fromChunk entityId item
  | Call.reqGiveItem atPosition item =>
    ((reqGiveItem env p atPosition item).1, (reqGiveItem env p atPosition item).2.2)

/-- The player and the whole trace after a sequence of serialised calls. -/
def run (env : Env σ) (p : Player σ) : List (Call σ) → Player σ × List (Event σ)
  | [] => (p, [])
  | c :: cs =>
    let r := step env p c
    let rest := run env r.1 cs
    (rest.1, r.2 ++ rest.2)

/-- A player state and the trace that led to it: some sequence of serialised
calls on a player made by `NewPlayer`. -/
def Reachable (env : Env σ) (p : Player σ) (trace : List (Event σ)) : Prop :=
  ∃ (entityId : EntityId) (itemTypes : ItemTypeId → Option σ.ItemType) (name : String)
    (position : AbsXyz σ.AbsCoord) (calls : List (Call σ)),
    run env (NewPlayer env entityId itemTypes name position) calls = (p, trace)

/-- Secondary windows opened and not yet finalized along a trace: every
`NewWindow` that returned a window opens one, every `Finalize` closes one. -/
def openWindows : List (Event σ) → Int
  | [] => 0
  | Event.newWindow _ _ _ (some _) :: es => openWindows es + 1
  | Event.windowFinalize _ _ :: es => openWindows es - 1
  | _ :: es => openWindows es

/-- The payloads put on `txQueue` along a trace, oldest first. -/
def transmitted : List (Event σ) → List (Option (List (Written σ)))
  | [] => []
  | Event.txQueueSend payload :: es => payload :: transmitted es
  | _ :: es => transmitted es

/-! ### A small instance of the collaborators

Exact integer coordinates, a single window type and trivial inventories: the
handlers can be evaluated on it. -/

/-- Integer square root, rounded up: the least `k` with `n ≤ k * k`.  It
exceeds 10 exactly when the real square root of `n` does, so on integer
coordinates the position check decides as it does with `math.Sqrt`. -/
def isqrtUp (n : Int) : Int := if n ≤ 0 then 0 else (Nat.sqrt (n.toNat - 1) : Int) + 1

/-- Types of the small instance: integer coordinates, a window is its id and
inventory type, a remote inventory is the block it mirrors, an item type is
its id (0 for the nil pointer). -/
abbrev tinyTypes : Externals :=
  { AbsCoord := Int
    ChunkSubs := Unit
    PlayerInventory := Unit
    Window := WindowId × InvTypeId
    RemoteInventory := BlockXyz
    ItemType := Nat
    decEqItemType := inferInstance
    ShardClient := Nat }

/-- The small instance: window ids 1 to 127 are free, only inventory type 1
has a window, every click on the player inventory is accepted and every click
on an open window is deferred to the shard. -/
def tinyEnv : Env tinyTypes :=
  { sub := fun (a b : Int) => a - b
    add := fun (a b : Int) => a + b
    mul := fun (a b : Int) => a * b
    sqrt := fun (a : Int) => isqrtUp a
    gtTen := fun (a : Int) => decide (a > 10)
    zero := (0 : Int)
    chunkSubsMove := fun _ _ => ()
    WindowIdInventory := 0
    WindowIdCursor := -1
    WindowIdFreeMin := 1
    WindowIdFreeMax := 127
    SlotIdCursor := -1
    GetWindowId := fun (w : WindowId × InvTypeId) => w.1
    Normalize := fun s => if s.Count = 0 then ⟨(0 : Nat), 0, 0⟩ else s
    emptySlot := ⟨(0 : Nat), 0, 0⟩
    inventoryClick := fun _ _ cursor _ _ _ _ => ⟨TxState.TxStateAccepted, cursor, (), ()⟩
    windowClick := fun w _ _ cursor _ _ _ _ => ⟨TxState.TxStateDeferred, cursor, (), w⟩
    windowFinalize := fun _ _ _ => ()
    Resubscribe := fun _ => ()
    NewRemoteInventory := fun block _ _ => block
    NewWindow := fun _ invTypeId windowId _ =>
      (if invTypeId = 1 then some (windowId, invTypeId) else none, ())
    IsForBlock := fun (ri : BlockXyz) block => decide (ri = block)
    initInventory := fun _ => ()
    initChunkSubs := ()
    curChunkLoc := fun _ => ⟨0, 0⟩
    ShardClientForBlockXyz := fun _ target =>
      if 0 ≤ target.X ∧ target.X < 16 ∧ 0 ≤ target.Z ∧ target.Z < 16 then some 0 else none
    ShardClientForChunkXz := fun _ loc => if loc = ⟨0, 0⟩ then some 0 else none
    ToChunkXz := fun (a : AbsXyz Int) => ⟨a.X / 16, a.Z / 16⟩
    FaceMinValid := 0
    FaceMaxValid := 5
    HeldItem := fun _ => ⟨(0 : Nat), 0, 0⟩
    SetHolding := fun _ _ => ()
    TakeOneHeldItem := fun _ into => ((), into)
    CanTakeItem := fun _ _ => true
    PutItem := fun _ item => ((), ⟨item.ItemType, 0, item.Data⟩)
    slotUpdate := fun ri _ _ => ri
    progressUpdate := fun ri _ _ => ri
    runCommand := fun p _ => p }

/-- Item table of the small instance: ids 1 to 9 are known. -/
def tinyItemTypes (id : ItemTypeId) : Option Nat :=
  if 1 ≤ id ∧ id ≤ 9 then some id.toNat else none

/-- A fresh player of the small instance, standing at the origin. -/
def tinyPlayer : Player tinyTypes :=
  NewPlayer tinyEnv 7 tinyItemTypes "p" ⟨(0 : Int), (0 : Int), (0 : Int)⟩

/-- The fresh player after a shard subscribed it to the workbench at
(1, 2, 3), with the trace of that call. -/
def tinyPlayerAtBench : Player tinyTypes × List (Event tinyTypes) :=
  run tinyEnv tinyPlayer [Call.reqInventorySubscribed ⟨1, 2, 3⟩ 1 []]

/-- The window fields of a player agree with each other and with its trace:
`curWindow` is set exactly when `remoteInv` is, and the trace has one window
open exactly when `curWindow` is set, none otherwise. -/
def WindowInv (p : Player σ) (trace : List (Event σ)) : Prop :=
  p.curWindow.isSome = p.remoteInv.isSome ∧
    openWindows trace = if p.curWindow.isSome then 1 else 0

/-! ### Chat, the inbound loop and the outbound loop -/

/-- Go `Player.PacketChatMessage`.  `message[0]` is the first byte of the
message and panics on the empty string; the first byte is `'/'` exactly when
the first character is, and `message[1:]` is then the rest of the message. -/
def PacketChatMessage (env : Env σ) (p : Player σ) (message : String) :
    Except Panic (Player σ × List (Event σ)) :=
  match message.data with
  | [] => Except.error Panic.indexOutOfRange
  | c :: rest =>
    if c = '/' then
      Except.ok (env.runCommand p (String.mk rest), [Event.runCommand (String.mk rest)])
    else
      Except.ok (p, sendChatMessage env p message)

/-- The packets the codec hands to the handlers of `player.go`, one
constructor per `Packet...` method; the fields of the two unknown packets are
only logged and are left out. -/
inductive Packet (σ : Externals) where
  | KeepAlive
  | ChatMessage (message : String)
  | EntityAction (entityId : EntityId) (action : Int)
  | UseEntity (user target : EntityId) (leftClick : Bool)
  | Respawn (dimension : Int)
  | Player (onGround : Bool)
  | PlayerPosition (position : AbsXyz σ.AbsCoord) (stance : σ.AbsCoord) (onGround : Bool)
  | PlayerLook (look : LookDegrees σ.AbsCoord) (onGround : Bool)
  | PlayerBlockHit (status : DigStatus) (target : BlockXyz) (face : Face)
  | PlayerBlockInteract (itemId : ItemTypeId) (target : BlockXyz) (face : Face)
      (amount : ItemCount) (uses : ItemData)
  | HoldingChange (slotId : SlotId)
  | EntityAnimation (entityId : EntityId) (animation : Int)
  | Unknown0x1b
  | Unknown0x3d
  | WindowClose (windowId : WindowId)
  | WindowClick (windowId : WindowId) (slotId : SlotId) (rightClick : Bool) (txId : TxId)
      (shiftClick : Bool) (expectedSlot : WindowSlot)
  | WindowTransaction (windowId : WindowId) (txId : TxId) (accepted : Bool)
  | SignUpdate (position : BlockXyz) (lines : List String)
  | Disconnect (reason : String)

/-- Modelled from the spec: the codec decodes one packet and dispatches it to
its handler on the player (`proto.ServerReadPacket` is not in the source
tree); the handlers are those of `player.go`. -/
def handle (env : Env σ) (p : Player σ) : Packet σ → Except Panic (Player σ × List (Event σ))
  | Packet.KeepAlive => Except.ok (p, [])
  | Packet.ChatMessage message => PacketChatMessage env p message
  | Packet.EntityAction _ _ => Except.ok (p, [])
  | Packet.UseEntity _ _ _ => Except.ok (p, [])
  | Packet.Respawn _ => Except.ok (p, [])
  | Packet.Player _ => Except.ok (p, [])
  | Packet.PlayerPosition position stance onGround =>
    Except.ok (PacketPlayerPosition env p position stance onGround)
  | Packet.PlayerLook look onGround => Except.ok (PacketPlayerLook env p look onGround)
  | Packet.PlayerBlockHit status target face =>
    Except.ok (PacketPlayerBlockHit env p status target face)
  | Packet.PlayerBlockInteract itemId target face amount uses =>
    Except.ok (PacketPlayerBlockInteract env p itemId target face amount uses)
  | Packet.HoldingChange slotId => Except.ok (PacketHoldingChange env p slotId)
  | Packet.EntityAnimation _ _ => Except.ok (p, [])
  | Packet.Unknown0x1b => Except.ok (p, [Event.log])
  | Packet.Unknown0x3d => Except.ok (p, [Event.log])
  | Packet.WindowClose windowId => Except.ok (PacketWindowClose env p windowId)
  | Packet.WindowClick windowId slotId rightClick txId shiftClick expectedSlot =>
    Except.ok (PacketWindowClick env p windowId slotId rightClick txId shiftClick expectedSlot)
  | Packet.WindowTransaction _ _ _ => Except.ok (p, [Event.log])
  | Packet.SignUpdate _ _ => Except.ok (p, [])
  | Packet.Disconnect reason => Except.ok (PacketDisconnect env p reason)

/-- What one `proto.ServerReadPacket(player.conn, player)` comes back with: a
packet was read and handled, or the error `os.EOF`, or another error. -/
inductive ReadResult (σ : Externals) where
  | packet (pkt : Packet σ)
  | EOF
  | failed

/-- Go `Player.receiveLoop` over the results of its successive reads: the
player, the calls made, and whether the loop returned (it blocks in the read
when the results run out). -/
def receiveLoop (env : Env σ) (p : Player σ) :
    List (ReadResult σ) → Except Panic (Player σ × List (Event σ) × Bool)
  | [] => Except.ok (p, [], false)
  | ReadResult.packet pkt :: rest =>
    match handle env p pkt with
    | Except.error e => Except.error e
    | Except.ok r =>
      match receiveLoop env r.1 rest with
      | Except.error e => Except.error e
      | Except.ok r2 => Except.ok (r2.1, r.2 ++ r2.2.1, r2.2.2)
  | ReadResult.EOF :: _ => Except.ok (p, [], true)
  | ReadResult.failed :: _ => Except.ok (p, [Event.log], true)

/-- The calls that make up the teardown of a player: the entity id sent to
`onDisconnect`, a nil sentinel on `txQueue`, a nil sentinel on `mainQueue`,
`Close` on the connection. -/
def isTeardown : Event σ → Bool
  | Event.onDisconnectSend _ => true
  | Event.txQueueSend none => true
  | Event.mainQueueSendNil => true
  | Event.connClose => true
  | _ => false

/-- What a `player.conn.Write` comes back with: no error, the error `os.EOF`,
or another error. -/
inductive WriteResult where
  | ok
  | EOF
  | failed
deriving DecidableEq, Repr

/-- Go `Player.transmitLoop` over the payloads received from `txQueue`, `conn n`
being the result of write number `n` on the connection: the calls made, and
whether the loop returned (it blocks in the receive when the queue runs
out). -/
def transmitLoop (conn : Nat → WriteResult) :
    Nat → List (Option (List (Written σ))) → List (Event σ) × Bool
  | _, [] => ([], false)
  | _, none :: _ => ([], true)
  | n, some bs :: rest =>
    match conn n with
    | WriteResult.ok =>
      let r := transmitLoop conn (n + 1) rest
      (Event.connWrite bs :: r.1, r.2)
    | WriteResult.EOF => ([Event.connWrite bs], true)
    | WriteResult.failed => ([Event.connWrite bs, Event.log], true)

/-- The payloads written to the connection along a trace, oldest first. -/
def connWrites : List (Event σ) → List (List (Written σ))
  | [] => []
  | Event.connWrite bs :: es => bs :: connWrites es
  | _ :: es => connWrites es

/-- The payloads of a queue that precede its first nil payload, in queue
order. -/
def beforeSentinel (queue : List (Option (List (Written σ)))) : List (List (Written σ)) :=
  (queue.takeWhile Option.isSome).filterMap id

/-- The number of the first write, among the first `m`, that fails. -/
def firstFailure (conn : Nat → WriteResult) (m : Nat) : Option Nat :=
  (List.range m).find? (fun i => decide (conn i ≠ WriteResult.ok))

/-- What the outbound loop is to write, in the words of the specification:
the payloads that precede the first nil payload, in queue order, each once,
and of these nothing after the first whose write fails. -/
def writesBySpec (conn : Nat → WriteResult) (queue : List (Option (List (Written σ)))) :
    List (List (Written σ)) :=
  match firstFailure conn (beforeSentinel queue).length with
  | none => beforeSentinel queue
  | some i => (beforeSentinel queue).take (i + 1)

/-- The requests a handler makes on a shard client. -/
def isShardRequest : Event σ → Bool
  | Event.ReqHitBlock _ _ _ _ _ => true
  | Event.ReqInteractBlock _ _ _ _ => true
  | Event.ReqPlaceItem _ _ _ => true
  | Event.ReqTakeItem _ _ _ => true
  | Event.ReqDropItem _ _ _ => true
  | _ => false

/-- The fresh player with a window open on the workbench at (1, 2, 3). -/
def tinyPlayerOpen : Player tinyTypes := tinyPlayerAtBench.1

/-- The player at the point where `reqInventorySubscribed` calls `NewWindow`:
after `closeCurrentWindow(true)` when a remote inventory was set, as it was
otherwise. -/
def beforeOpen (env : Env σ) (p : Player σ) : Player σ :=
  match p.remoteInv with
  | some _ => (closeCurrentWindow env p true).1
  | none => p

/-- The window id lies among the free window ids. -/
def WindowIdFree (env : Env σ) (windowId : WindowId) : Prop :=
  env.WindowIdFreeMin ≤ windowId ∧ windowId ≤ env.WindowIdFreeMax

end player

/-! ## Package `block`: the workbench aspect -/

namespace block

/-- An implementation of `stub.IPlayerConnection`: `handle` tells connections
apart, `EntityId` is what `GetEntityId()` returns. -/
structure IPlayerConnection where
  handle : Nat
  EntityId : EntityId
deriving DecidableEq, Repr

/-- The fields of `BlockInstance` that the workbench reads.  Calls on its
`Chunk` appear as events. -/
structure BlockInstance where
  BlockLoc : BlockXyz
  SubLoc : SubChunkXyz
deriving DecidableEq, Repr

/-- The calls `workbench_aspect.go` makes on players, on the chunk and on the
world. -/
inductive Event (IT : Type) where
  | ReqInventorySubscribed (player : IPlayerConnection) (block : BlockXyz)
      (invTypeId : InvTypeId) (slots : List WindowSlot)
  | ReqInventorySlotUpdate (player : IPlayerConnection) (block : BlockXyz) (slot : Slot IT)
      (slotId : SlotId)
  | ReqInventoryCursorUpdate (player : IPlayerConnection) (block : BlockXyz) (cursor : Slot IT)
  | ReqInventoryTxState (player : IPlayerConnection) (block : BlockXyz) (txId : TxId)
      (accepted : Bool)
  | ReqInventoryUnsubscribed (player : IPlayerConnection) (block : BlockXyz)
  /-- Go `instance.Chunk.AddOnUnsubscribe(entityId, extra)` -/
  | AddOnUnsubscribe (entityId : EntityId)
  /-- Go `instance.Chunk.RemoveOnUnsubscribe(entityId, extra)` -/
  | RemoveOnUnsubscribe (entityId : EntityId)
  /-- Go `spawnItemInBlock(instance, itemType, count, data)` -/
  | spawnItemInBlock (instance_ : BlockInstance) (itemType : IT) (count : ItemCount)
      (data : ItemData)
  /-- Go `instance.Chunk.SetBlockExtra(subLoc, extra)` -/
  | SetBlockExtra (subLoc : SubChunkXyz)
  /-- Go `aspect.StandardAspect.Destroy(instance)` -/
  | StandardAspectDestroy (instance_ : BlockInstance)
deriving DecidableEq, Repr

/-- What `CraftingInventory.Click` reports and leaves behind; `updates` are
the calls it makes on its subscriber's `SlotUpdate`, in order. -/
structure InvClick (IT Inv : Type) where
  txState : TxState
  cursor : Slot IT
  inv : Inv
  updates : List (Slot IT × SlotId)

/-- What `CraftingInventory.TakeAllItems` returns and leaves behind; `updates`
are the calls it makes on its subscriber's `SlotUpdate`, in order. -/
structure InvTake (IT Inv : Type) where
  items : List (Slot IT)
  inv : Inv
  updates : List (Slot IT × SlotId)

/-- Code of the `inventory` and `types` packages that the workbench calls. -/
structure Env (IT Inv : Type) where
  /-- Go `InvTypeIdWorkbench` -/
  InvTypeIdWorkbench : InvTypeId
  /-- Go `InitWorkbenchInventory` on a fresh inventory -/
  InitWorkbenchInventory : Inv
  /-- Go `CraftingInventory.Click` -/
  Click : Inv → SlotId → Slot IT → Bool → Bool → TxId → Slot IT → InvClick IT Inv
  /-- Go `CraftingInventory.MakeProtoSlots` -/
  MakeProtoSlots : Inv → List WindowSlot
  /-- Go `CraftingInventory.TakeAllItems` -/
  TakeAllItems : Inv → InvTake IT Inv

/-- Go `workbenchExtra` -/
structure workbenchExtra (Inv : Type) where
  instance_ : BlockInstance
  inv : Inv
  subscribers : GoMap EntityId IPlayerConnection
deriving DecidableEq

variable {IT Inv : Type}

/-- Go `newWorkbenchExtra`: an allocated, empty subscriber map and an
initialised inventory whose subscriber is the new value itself. -/
def newWorkbenchExtra (env : Env IT Inv) (instance_ : BlockInstance) : workbenchExtra Inv :=
  { instance_ := instance_
    inv := env.InitWorkbenchInventory
    subscribers := some [] }

/-- Go `workbenchExtra.SlotUpdate` -/
def SlotUpdate (extra : workbenchExtra Inv) (slot : Slot IT) (slotId : SlotId) :
    List (Event IT) :=
  (GoMap.entries extra.subscribers).map
    (fun e => Event.ReqInventorySlotUpdate e.2 extra.instance_.BlockLoc slot slotId)

/-- The `SlotUpdate` calls the inventory makes on `extra`, its subscriber,
while one of its methods runs. -/
def relayUpdates (extra : workbenchExtra Inv) (updates : List (Slot IT × SlotId)) :
    List (Event IT) :=
  (updates.map (fun u => SlotUpdate extra u.1 u.2)).flatten

/-- Go `workbenchExtra.Click`: the extra and the cursor after the click, and
the calls made. -/
def Click (env : Env IT Inv) (extra : workbenchExtra Inv) (player : IPlayerConnection)
    (slotId : SlotId) (cursor : Slot IT) (rightClick shiftClick : Bool) (txId : TxId)
    (expectedSlot : Slot IT) : workbenchExtra Inv × Slot IT × List (Event IT) :=
  let r := env.Click extra.inv slotId cursor rightClick shiftClick txId expectedSlot
  ({ extra with inv := r.inv }, r.cursor,
    relayUpdates extra r.updates ++
      [Event.ReqInventoryCursorUpdate player extra.instance_.BlockLoc r.cursor,
        Event.ReqInventoryTxState player extra.instance_.BlockLoc txId
          (decide (r.txState = TxState.TxStateAccepted))])

/-- Go `workbenchExtra.AddSubscriber` -/
def AddSubscriber (env : Env IT Inv) (extra : workbenchExtra Inv) (player : IPlayerConnection) :
    Except Panic (workbenchExtra Inv × List (Event IT)) :=
  let entityId := player.EntityId
  match GoMap.insert extra.subscribers entityId player with
  | Except.error e => Except.error e
  | Except.ok m =>
    let slots := env.MakeProtoSlots extra.inv
    Except.ok ({ extra with subscribers := m },
      [Event.AddOnUnsubscribe entityId,
        Event.ReqInventorySubscribed player extra.instance_.BlockLoc env.InvTypeIdWorkbench slots])

/-- Go `workbenchExtra.EjectItems` -/
def EjectItems (env : Env IT Inv) (extra : workbenchExtra Inv) :
    workbenchExtra Inv × List (Event IT) :=
  let r := env.TakeAllItems extra.inv
  ({ extra with inv := r.inv },
    relayUpdates extra r.updates ++
      r.items.map (fun slot =>
        Event.spawnItemInBlock extra.instance_ slot.ItemType slot.Count slot.Data))

/-- Go `workbenchExtra.RemoveSubscriber` -/
def RemoveSubscriber (env : Env IT Inv) (extra : workbenchExtra Inv) (entityId : EntityId) :
    workbenchExtra Inv × List (Event IT) :=
  let extra1 : workbenchExtra Inv :=
    { extra with subscribers := GoMap.delete extra.subscribers entityId }
  if GoMap.len extra1.subscribers = 0 then
    let r := EjectItems env extra1
    (r.1, Event.RemoveOnUnsubscribe entityId :: r.2)
  else
    (extra1, [Event.RemoveOnUnsubscribe entityId])

/-- Go `workbenchExtra.Destroyed` -/
def Destroyed (extra : workbenchExtra Inv) : workbenchExtra Inv × List (Event IT) :=
  ({ extra with subscribers := none },
    ((GoMap.entries extra.subscribers).map (fun e =>
      [Event.ReqInventoryUnsubscribed e.2 extra.instance_.BlockLoc,
        Event.RemoveOnUnsubscribe e.2.EntityId])).flatten)

/-- Go `workbenchExtra.Unsubscribed` -/
def Unsubscribed (extra : workbenchExtra Inv) (entityId : EntityId) : workbenchExtra Inv :=
  { extra with subscribers := GoMap.delete extra.subscribers entityId }

/-- An inventory holds no items when `TakeAllItems` has nothing to return. -/
def holdsNoItems (env : Env IT Inv) (inv : Inv) : Prop := (env.TakeAllItems inv).items = []

/-- The subscriber map of a workbench is well formed: its keys are distinct,
as in every Go map, and every player is stored under its own entity id, as
`AddSubscriber` stores it. -/
def SubscribersOk (extra : workbenchExtra Inv) : Prop :=
  GoMap.KeysDistinct extra.subscribers ∧
    ∀ e ∈ GoMap.entries extra.subscribers, e.2.EntityId = e.1

/-- A player is subscribed when the map holds it under its entity id. -/
def Subscribed (extra : workbenchExtra Inv) (player : IPlayerConnection) : Prop :=
  (player.EntityId, player) ∈ GoMap.entries extra.subscribers

/-! ### The aspect and the chunk's block extras -/

/-- A value stored by `Chunk.SetBlockExtra`: a workbench or some other type. -/
inductive BlockExtra (Inv : Type) where
  | workbench (extra : workbenchExtra Inv)
  | other (tag : Nat)

/-- Modelled from the spec: the chunk's per-block extra payload, keyed by
sub-location, with absence for a block that has none (`chunk.go` is not in
the source tree). -/
abbrev ChunkExtras (Inv : Type) := List (SubChunkXyz × BlockExtra Inv)

/-- Go `Chunk.BlockExtra(subLoc)`; `none` is the nil interface value. -/
def ChunkExtras.BlockExtra (c : ChunkExtras Inv) (subLoc : SubChunkXyz) :
    Option (BlockExtra Inv) :=
  (c.find? (fun e => decide (e.1 = subLoc))).map Prod.snd

/-- Go `Chunk.SetBlockExtra(subLoc, extra)` -/
def ChunkExtras.SetBlockExtra (c : ChunkExtras Inv) (subLoc : SubChunkXyz)
    (extra : block.BlockExtra Inv) : ChunkExtras Inv :=
  (subLoc, extra) :: c.filter (fun e => decide (e.1 ≠ subLoc))

/-- The chunk after a method mutated, through its pointer, the workbench
stored at `subLoc`. -/
def ChunkExtras.mutate (c : ChunkExtras Inv) (subLoc : SubChunkXyz)
    (extra : workbenchExtra Inv) : ChunkExtras Inv :=
  c.map (fun e => if e.1 = subLoc then (e.1, BlockExtra.workbench extra) else e)

/-- Dereference of a pointer: nil panics. -/
def deref {α : Type} : Option α → Except Panic α
  | none => Except.error Panic.nilDereference
  | some a => Except.ok a

/-- Go `WorkbenchAspect.invWrapper`: the workbench found or created (`none`
is nil), the chunk and the calls made. -/
def invWrapper (env : Env IT Inv) (chunk : ChunkExtras Inv) (instance_ : BlockInstance)
    (create : Bool) : Option (workbenchExtra Inv) × ChunkExtras Inv × List (Event IT) :=
  match chunk.BlockExtra instance_.SubLoc with
  | some (BlockExtra.workbench extra) => (some extra, chunk, [])
  | _ =>
    if create then
      let extra := newWorkbenchExtra env instance_
      (some extra, chunk.SetBlockExtra instance_.SubLoc (BlockExtra.workbench extra),
        [Event.SetBlockExtra instance_.SubLoc])
    else (none, chunk, [])

/-- Go `WorkbenchAspect.Interact` -/
def Interact (env : Env IT Inv) (chunk : ChunkExtras Inv) (instance_ : BlockInstance)
    (player : IPlayerConnection) : Except Panic (ChunkExtras Inv × List (Event IT)) :=
  let w := invWrapper env chunk instance_ true
  match w.1 with
  | some extra =>
    match AddSubscriber env extra player with
    | Except.error e => Except.error e
    | Except.ok r => Except.ok (w.2.1.mutate instance_.SubLoc r.1, w.2.2 ++ r.2)
  | none => Except.ok (w.2.1, w.2.2)

/-- Go `WorkbenchAspect.InventoryClick`: the chunk and the cursor after the
call, and the calls made.  In the branch without a workbench the first call
reads `extra.instance.BlockLoc` through `extra`, which is nil there. -/
def InventoryClick (env : Env IT Inv) (chunk : ChunkExtras Inv) (instance_ : BlockInstance)
    (player : IPlayerConnection) (slotId : SlotId) (cursor : Slot IT)
    (rightClick shiftClick : Bool) (txId : TxId) (expectedSlot : Slot IT) :
    Except Panic (ChunkExtras Inv × Slot IT × List (Event IT)) :=
  let w := invWrapper env chunk instance_ false
  match w.1 with
  | some extra =>
    let r := Click env extra player slotId cursor rightClick shiftClick txId expectedSlot
    Except.ok (w.2.1.mutate instance_.SubLoc r.1, r.2.1, w.2.2 ++ r.2.2)
  | none =>
    match deref w.1 with
    | Except.error e => Except.error e
    | Except.ok extra =>
      Except.ok (w.2.1, cursor, w.2.2 ++
        [Event.ReqInventoryTxState player extra.instance_.BlockLoc txId false,
          Event.ReqInventoryCursorUpdate player instance_.BlockLoc cursor])

/-- Go `WorkbenchAspect.InventoryUnsubscribed` -/
def InventoryUnsubscribed (env : Env IT Inv) (chunk : ChunkExtras Inv)
    (instance_ : BlockInstance) (player : IPlayerConnection) :
    ChunkExtras Inv × List (Event IT) :=
  let w := invWrapper env chunk instance_ false
  match w.1 with
  | some extra =>
    let r := RemoveSubscriber env extra player.EntityId
    (w.2.1.mutate instance_.SubLoc r.1, w.2.2 ++ r.2)
  | none => (w.2.1, w.2.2)

/-- Go `WorkbenchAspect.Destroy` -/
def Destroy (env : Env IT Inv) (chunk : ChunkExtras Inv) (instance_ : BlockInstance) :
    ChunkExtras Inv × List (Event IT) :=
  let w := invWrapper env chunk instance_ false
  match w.1 with
  | some extra =>
    let r1 := EjectItems env extra
    let r2 : workbenchExtra Inv × List (Event IT) := Destroyed r1.1
    (w.2.1.mutate instance_.SubLoc r2.1,
      w.2.2 ++ r1.2 ++ r2.2 ++ [Event.StandardAspectDestroy instance_])
  | none => (w.2.1, w.2.2 ++ [Event.StandardAspectDestroy instance_])

/-! ### Workbenches a run of the server can hold -/

/-- A workbench a chunk can hold: made by `newWorkbenchExtra` and changed
only by the methods of `workbenchExtra`. -/
inductive Reachable (env : Env IT Inv) : workbenchExtra Inv → Prop where
  | newWorkbenchExtra (instance_ : BlockInstance) :
    Reachable env (newWorkbenchExtra env instance_)
  | AddSubscriber (extra extra1 : workbenchExtra Inv) (player : IPlayerConnection)
      (events : List (Event IT)) :
    Reachable env extra → AddSubscriber env extra player = Except.ok (extra1, events) →
      Reachable env extra1
  | RemoveSubscriber (extra : workbenchExtra Inv) (entityId : EntityId) :
    Reachable env extra → Reachable env (RemoveSubscriber env extra entityId).1
  | Unsubscribed (extra : workbenchExtra Inv) (entityId : EntityId) :
    Reachable env extra → Reachable env (Unsubscribed extra entityId)
  | Click (extra : workbenchExtra Inv) (player : IPlayerConnection) (slotId : SlotId)
      (cursor : Slot IT) (rightClick shiftClick : Bool) (txId : TxId) (expectedSlot : Slot IT) :
    Reachable env extra →
      Reachable env (Click env extra player slotId cursor rightClick shiftClick txId
        expectedSlot).1
  | EjectItems (extra : workbenchExtra Inv) :
    Reachable env extra → Reachable env (EjectItems env extra).1
  | Destroyed (extra : workbenchExtra Inv) :
    Reachable env extra → Reachable env (Destroyed extra : workbenchExtra Inv × List (Event IT)).1

/-- A workbench that has not been destroyed: reachable without `Destroyed`. -/
inductive Live (env : Env IT Inv) : workbenchExtra Inv → Prop where
  | newWorkbenchExtra (instance_ : BlockInstance) :
    Live env (newWorkbenchExtra env instance_)
  | AddSubscriber (extra extra1 : workbenchExtra Inv) (player : IPlayerConnection)
      (events : List (Event IT)) :
    Live env extra → AddSubscriber env extra player = Except.ok (extra1, events) →
      Live env extra1
  | RemoveSubscriber (extra : workbenchExtra Inv) (entityId : EntityId) :
    Live env extra → Live env (RemoveSubscriber env extra entityId).1
  | Unsubscribed (extra : workbenchExtra Inv) (entityId : EntityId) :
    Live env extra → Live env (Unsubscribed extra entityId)
  | Click (extra : workbenchExtra Inv) (player : IPlayerConnection) (slotId : SlotId)
      (cursor : Slot IT) (rightClick shiftClick : Bool) (txId : TxId) (expectedSlot : Slot IT) :
    Live env extra →
      Live env (Click env extra player slotId cursor rightClick shiftClick txId expectedSlot).1
  | EjectItems (extra : workbenchExtra Inv) :
    Live env extra → Live env (EjectItems env extra).1

/-! ### Reading a trace -/

/-- The player a call is made on, if it is a call on a player. -/
def addressee : Event IT → Option IPlayerConnection
  | Event.ReqInventorySubscribed player _ _ _ => some player
  | Event.ReqInventorySlotUpdate player _ _ _ => some player
  | Event.ReqInventoryCursorUpdate player _ _ => some player
  | Event.ReqInventoryTxState player _ _ _ => some player
  | Event.ReqInventoryUnsubscribed player _ => some player
  | _ => none

/-- The calls of a trace made on `player`, in order. -/
def received (player : IPlayerConnection) (events : List (Event IT)) : List (Event IT) :=
  events.filter (fun e => decide (addressee e = some player))

/-- Cursor updates and transaction statuses are the replies to a click. -/
def isReply : Event IT → Bool
  | Event.ReqInventoryCursorUpdate _ _ _ => true
  | Event.ReqInventoryTxState _ _ _ _ => true
  | _ => false

/-- The entity ids whose on-unsubscribe callback a trace deregisters, in
order. -/
def deregistered : List (Event IT) → List EntityId
  | [] => []
  | Event.RemoveOnUnsubscribe entityId :: es => entityId :: deregistered es
  | _ :: es => deregistered es

/-- The items a trace spawns in the world, in order. -/
def spawned : List (Event IT) → List (BlockInstance × Slot IT)
  | [] => []
  | Event.spawnItemInBlock instance_ itemType count data :: es =>
    (instance_, ⟨itemType, count, data⟩) :: spawned es
  | _ :: es => spawned es

/-! ### A small inventory -/

/-- Modelled from the spec: an inventory is a mapping from slot index to slot
(`inventory.CraftingInventory` is not in the source tree); item types are
numbered, 0 being the nil pointer. -/
abbrev SpecInv := List (Slot Nat)

/-- Modelled from the spec: the empty slot, to which a zero-count slot
normalizes. -/
def specEmptySlot : Slot Nat := ⟨0, 0, 0⟩

/-- Modelled from the spec: `TakeAllItems` returns every held slot and leaves
the inventory empty. -/
def specTakeAllItems (inv : SpecInv) : InvTake Nat SpecInv :=
  { items := inv.filter (fun s => decide (0 < s.Count))
    inv := inv.map (fun _ => specEmptySlot)
    updates := [] }

/-- Modelled from the spec: the one click rule the spec fixes, a plain click
with a non-empty cursor on an empty slot is accepted, moves the whole cursor
stack into the slot, empties the cursor and reports the slot to the
subscriber; every other click is rejected without mutation. -/
def specClick (inv : SpecInv) (slotId : SlotId) (cursor : Slot Nat) (rightClick shiftClick : Bool)
    (_txId : TxId) (_expectedSlot : Slot Nat) : InvClick Nat SpecInv :=
  match inv.get? slotId.toNat with
  | some s =>
    if 0 ≤ slotId ∧ s.Count = 0 ∧ 0 < cursor.Count ∧ rightClick = false ∧ shiftClick = false then
      { txState := TxState.TxStateAccepted
        cursor := specEmptySlot
        inv := inv.set slotId.toNat cursor
        updates := [(cursor, slotId)] }
    else
      { txState := TxState.TxStateRejected, cursor := cursor, inv := inv, updates := [] }
  | none => { txState := TxState.TxStateRejected, cursor := cursor, inv := inv, updates := [] }

/-- Modelled from the spec: the snapshot of an inventory lists its slots in
order, an item type by its id. -/
def specMakeProtoSlots (inv : SpecInv) : List WindowSlot :=
  inv.map (fun s => ⟨(s.ItemType : Int), s.Count, s.Data⟩)

/-- Modelled from the spec: a workbench inventory of ten slots, the crafting
output and a 3x3 grid, empty when created. -/
def specEnv : Env Nat SpecInv :=
  { InvTypeIdWorkbench := 1
    InitWorkbenchInventory := List.replicate 10 specEmptySlot
    Click := specClick
    MakeProtoSlots := specMakeProtoSlots
    TakeAllItems := specTakeAllItems }

/-- A workbench block of the small world. -/
def benchBlock : BlockInstance := ⟨⟨10, 64, 10⟩, ⟨10, 64, 10⟩⟩

/-- Player A of the small world. -/
def playerA : IPlayerConnection := ⟨1, 101⟩

/-- Player B of the small world. -/
def playerB : IPlayerConnection := ⟨2, 102⟩

/-- Four planks (item type 5). -/
def planks : Slot Nat := ⟨5, 4, 0⟩

/-- A workbench with subscribers A and B and four planks in slot 1. -/
def benchAB : workbenchExtra SpecInv :=
  { instance_ := benchBlock
    inv := (List.replicate 10 specEmptySlot).set 1 planks
    subscribers := some [(102, playerB), (101, playerA)] }

/-- A workbench with the single subscriber A and four planks in slot 1. -/
def benchA : workbenchExtra SpecInv :=
  { instance_ := benchBlock
    inv := (List.replicate 10 specEmptySlot).set 1 planks
    subscribers := some [(101, playerA)] }

end block

/-! ## The player: movement and window clicks -/

namespace player

variable {σ : Externals}

theorem PacketPlayerPosition_near (env : Env σ) (p : Player σ) (position : AbsXyz σ.AbsCoord)
    (stance : σ.AbsCoord) (onGround : Bool)
    (hNear : env.gtTen (distance env position p.position) = false) :
    (PacketPlayerPosition env p position stance onGround).1.position = position ∧
      (PacketPlayerPosition env p position stance onGround).2 = [Event.chunkSubsMove position] := by
  simp [PacketPlayerPosition, hNear]

theorem PacketPlayerPosition_of_guard (env : Env σ) (p : Player σ)
    (position : AbsXyz σ.AbsCoord) (stance : σ.AbsCoord) (onGround : Bool)
    (hGuard : env.gtTen (distance env position p.position) = true) :
    PacketPlayerPosition env p position stance onGround = (p, [Event.log]) := by
  simp [PacketPlayerPosition, hGuard]

theorem distance_exact (env : Env σ) (val : σ.AbsCoord → ℝ) (hExact : ExactArithmetic env val)
    (position last : AbsXyz σ.AbsCoord) :
    env.gtTen (distance env position last) = true ↔
      10 < Real.sqrt ((val position.X - val last.X) ^ 2 + (val position.Y - val last.Y) ^ 2 +
        (val position.Z - val last.Z) ^ 2) := by
  unfold distance
  rw [hExact.sqrtGtTen]
  simp only [hExact.add, hExact.mul, hExact.sub, pow_two]

/-- C1: with exact arithmetic on coordinates, a position update whose
Euclidean distance from the last accepted position exceeds 10 leaves the whole
player, `position` and `chunkSubs` included, unchanged, and the trace of the
call holds no `chunkSubs.Move` (it is the log call alone). -/
theorem PacketPlayerPosition_rejects_far (env : Env σ) (val : σ.AbsCoord → ℝ) (p : Player σ)
    (position : AbsXyz σ.AbsCoord) (stance : σ.AbsCoord) (onGround : Bool)
    (hExact : ExactArithmetic env val)
    (hFar : 10 < Real.sqrt ((val position.X - val p.position.X) ^ 2 +
      (val position.Y - val p.position.Y) ^ 2 + (val position.Z - val p.position.Z) ^ 2)) :
    (PacketPlayerPosition env p position stance onGround).1 = p ∧
      (PacketPlayerPosition env p position stance onGround).1.position = p.position ∧
      (PacketPlayerPosition env p position stance onGround).2 = [Event.log] ∧
      ∀ q : AbsXyz σ.AbsCoord,
        Event.chunkSubsMove q ∉ (PacketPlayerPosition env p position stance onGround).2 := by
  have hGuard := (distance_exact env val hExact position p.position).mpr hFar
  rw [PacketPlayerPosition_of_guard env p position stance onGround hGuard]
  simp

theorem PacketPlayerPosition_accepts_near (env : Env σ) (val : σ.AbsCoord → ℝ) (p : Player σ)
    (position : AbsXyz σ.AbsCoord) (stance : σ.AbsCoord) (onGround : Bool)
    (hExact : ExactArithmetic env val)
    (hNear : Real.sqrt ((val position.X - val p.position.X) ^ 2 +
      (val position.Y - val p.position.Y) ^ 2 + (val position.Z - val p.position.Z) ^ 2) ≤ 10) :
    (PacketPlayerPosition env p position stance onGround).1.position = position ∧
      (PacketPlayerPosition env p position stance onGround).2 = [Event.chunkSubsMove position] := by
  apply PacketPlayerPosition_near
  cases hg : env.gtTen (distance env position p.position) with
  | false => rfl
  | true =>
    have := (distance_exact env val hExact position p.position).mp hg
    exact absurd this (not_lt.mpr hNear)

theorem isqrtUp_gt_ten (x : Int) : 10 < isqrtUp x ↔ 100 < x := by
  unfold isqrtUp
  by_cases hx : x ≤ 0
  · simp only [hx, if_true]
    omega
  · simp only [hx, if_false]
    have h1 : (10 : Int) < (Nat.sqrt (x.toNat - 1) : Int) + 1 ↔ 10 ≤ Nat.sqrt (x.toNat - 1) := by
      omega
    rw [h1, Nat.le_sqrt]
    omega

theorem tinyEnv_exact : ExactArithmetic tinyEnv (fun x : Int => (x : ℝ)) := by
  refine ⟨?_, ?_, ?_, ?_⟩
  · intro a b
    show ((a - b : Int) : ℝ) = (a : ℝ) - (b : ℝ)
    push_cast
    rfl
  · intro a b
    show ((a + b : Int) : ℝ) = (a : ℝ) + (b : ℝ)
    push_cast
    rfl
  · intro a b
    show ((a * b : Int) : ℝ) = (a : ℝ) * (b : ℝ)
    push_cast
    rfl
  · intro x
    show decide (isqrtUp x > 10) = true ↔ 10 < Real.sqrt ((x : Int) : ℝ)
    rw [decide_eq_true_iff, gt_iff_lt, isqrtUp_gt_ten, Real.lt_sqrt (by norm_num)]
    constructor
    · intro h
      have : ((100 : Int) : ℝ) < (x : ℝ) := Int.cast_lt.mpr h
      norm_num at this ⊢
      exact this
    · intro h
      have h2 : ((100 : Int) : ℝ) < (x : ℝ) := by
        norm_num at h ⊢
        exact h
      exact Int.cast_lt.mp h2

theorem PacketPlayerPosition_rejects_far_witness :
    ExactArithmetic tinyEnv (fun x : Int => (x : ℝ)) ∧
      10 < Real.sqrt ((((10 : Int) : ℝ) - ((tinyPlayer.position.X : Int) : ℝ)) ^ 2 +
        (((1 : Int) : ℝ) - ((tinyPlayer.position.Y : Int) : ℝ)) ^ 2 +
        (((0 : Int) : ℝ) - ((tinyPlayer.position.Z : Int) : ℝ)) ^ 2) ∧
      PacketPlayerPosition tinyEnv tinyPlayer ⟨(10 : Int), (1 : Int), (0 : Int)⟩ (0 : Int) true
        = (tinyPlayer, [Event.log]) :=
  have hFar : 10 < Real.sqrt ((((10 : Int) : ℝ) - ((tinyPlayer.position.X : Int) : ℝ)) ^ 2 +
      (((1 : Int) : ℝ) - ((tinyPlayer.position.Y : Int) : ℝ)) ^ 2 +
      (((0 : Int) : ℝ) - ((tinyPlayer.position.Z : Int) : ℝ)) ^ 2) := by
    rw [Real.lt_sqrt (by norm_num)]
    have hx : (tinyPlayer.position.X : Int) = 0 := rfl
    have hy : (tinyPlayer.position.Y : Int) = 0 := rfl
    have hz : (tinyPlayer.position.Z : Int) = 0 := rfl
    rw [hx, hy, hz]
    norm_num
  ⟨tinyEnv_exact, hFar,
    Prod.ext
      (PacketPlayerPosition_rejects_far tinyEnv (fun x : Int => (x : ℝ)) tinyPlayer
        ⟨(10 : Int), (1 : Int), (0 : Int)⟩ (0 : Int) true tinyEnv_exact hFar).1
      (PacketPlayerPosition_rejects_far tinyEnv (fun x : Int => (x : ℝ)) tinyPlayer
        ⟨(10 : Int), (1 : Int), (0 : Int)⟩ (0 : Int) true tinyEnv_exact hFar).2.2.1⟩

theorem transmitted_append (a b : List (Event σ)) :
    transmitted (a ++ b) = transmitted a ++ transmitted b := by
  induction a with
  | nil => rfl
  | cons e es ih => cases e <;> simp [transmitted, ih]

theorem transmitted_selectWindow (env : Env σ) (p : Player σ) (windowId : WindowId) :
    transmitted (selectWindow env p windowId).2 = [] := by
  unfold selectWindow
  split
  · rfl
  · split
    · split <;> rfl
    · rfl

theorem transmitted_clickWindow (env : Env σ) (p : Player σ) (cw : ClickedWindow σ)
    (slotId : SlotId) (rightClick shiftClick : Bool) (txId : TxId) (e : Slot σ.ItemType) :
    transmitted (clickWindow env p cw slotId rightClick shiftClick txId e).2.2 = [] := by
  cases cw <;> rfl

theorem PacketWindowClick_after_click (env : Env σ) (p : Player σ) (windowId : WindowId)
    (slotId : SlotId) (rightClick : Bool) (txId : TxId) (shiftClick : Bool)
    (expectedSlot : WindowSlot) (expectedItemType : σ.ItemType)
    (hKnown : p.ItemTypes expectedSlot.ItemTypeId = some expectedItemType) :
    let click := clickWindow env p (selectWindow env p windowId).1 slotId rightClick shiftClick
      txId (env.Normalize ⟨expectedItemType, expectedSlot.Count, expectedSlot.Data⟩)
    let out := PacketWindowClick env p windowId slotId rightClick txId shiftClick expectedSlot
    out.1 = click.2.1 ∧
      (click.1 ≠ TxState.TxStateDeferred →
        transmitted out.2 =
          [some [Written.windowTransaction windowId txId
                  (decide (click.1 = TxState.TxStateAccepted)),
                Written.slotUpdate out.1.cursor env.WindowIdCursor env.SlotIdCursor]]) ∧
      (click.1 = TxState.TxStateDeferred → transmitted out.2 = []) := by
  intro click out
  have hsel := transmitted_selectWindow env p windowId
  have hclick := transmitted_clickWindow env p (selectWindow env p windowId).1 slotId rightClick
    shiftClick txId (env.Normalize ⟨expectedItemType, expectedSlot.Count, expectedSlot.Data⟩)
  have hout : out = PacketWindowClick env p windowId slotId rightClick txId shiftClick
    expectedSlot := rfl
  simp only [PacketWindowClick, hKnown] at hout
  cases hs : click.1 with
  | TxStateDeferred =>
    have hs' : (clickWindow env p (selectWindow env p windowId).1 slotId rightClick shiftClick
      txId (env.Normalize ⟨expectedItemType, expectedSlot.Count, expectedSlot.Data⟩)).1
        = TxState.TxStateDeferred := hs
    simp only [hs'] at hout
    rw [hout]
    simp [transmitted_append, hsel, hclick, click]
  | TxStateAccepted =>
    have hs' : (clickWindow env p (selectWindow env p windowId).1 slotId rightClick shiftClick
      txId (env.Normalize ⟨expectedItemType, expectedSlot.Count, expectedSlot.Data⟩)).1
        = TxState.TxStateAccepted := hs
    simp only [hs'] at hout
    rw [hout]
    simp [transmitted_append, hsel, hclick, click, TransmitPacket, Buffer.Bytes, clickReply,
      transmitted]
  | TxStateRejected =>
    have hs' : (clickWindow env p (selectWindow env p windowId).1 slotId rightClick shiftClick
      txId (env.Normalize ⟨expectedItemType, expectedSlot.Count, expectedSlot.Data⟩)).1
        = TxState.TxStateRejected := hs
    simp only [hs'] at hout
    rw [hout]
    simp [transmitted_append, hsel, hclick, click, TransmitPacket, Buffer.Bytes, clickReply,
      transmitted]

theorem selectWindow_inventory (env : Env σ) (p : Player σ) (windowId : WindowId)
    (h : windowId = env.WindowIdInventory) :
    selectWindow env p windowId = (ClickedWindow.inventory, []) := by
  simp [selectWindow, h]

theorem selectWindow_open (env : Env σ) (p : Player σ) (windowId : WindowId) (w : σ.Window)
    (h : windowId ≠ env.WindowIdInventory) (hw : p.curWindow = some w)
    (hid : env.GetWindowId w = windowId) :
    selectWindow env p windowId = (ClickedWindow.curWindow w, []) := by
  simp [selectWindow, h, hw, hid]

theorem selectWindow_unknown (env : Env σ) (p : Player σ) (windowId : WindowId)
    (h : windowId ≠ env.WindowIdInventory)
    (hw : ∀ w, p.curWindow = some w → env.GetWindowId w ≠ windowId) :
    selectWindow env p windowId = (ClickedWindow.unknown, [Event.log]) := by
  unfold selectWindow
  rw [if_neg h]
  cases hc : p.curWindow with
  | none => rfl
  | some w => simp [hw w hc]

/-- C2: when the expected item type is known, `PacketWindowClick` makes the
click on the window the id names, the player inventory for
`WindowIdInventory` and the open window for its own id, with the player's
cursor and the normalized expected slot.  When that click answers Accepted or
Rejected, exactly one packet is put on `txQueue`: the transaction status for
(windowId, txId, accepted), accepted being true exactly for Accepted, and then
the update of the cursor as the click left it; when it answers Deferred
nothing is put on `txQueue`.  When no window has the id no click is made and
the one packet reports the click as not accepted, with the cursor
unchanged. -/
theorem PacketWindowClick_reply (env : Env σ) (p : Player σ) (windowId : WindowId)
    (slotId : SlotId) (rightClick : Bool) (txId : TxId) (shiftClick : Bool)
    (expectedSlot : WindowSlot) (expectedItemType : σ.ItemType)
    (hKnown : p.ItemTypes expectedSlot.ItemTypeId = some expectedItemType) :
    let expected := env.Normalize ⟨expectedItemType, expectedSlot.Count, expectedSlot.Data⟩
    let out := PacketWindowClick env p windowId slotId rightClick txId shiftClick expectedSlot
    (windowId = env.WindowIdInventory →
        let res := env.inventoryClick p.inventory slotId p.cursor rightClick shiftClick txId
          expected
        out.1 = { p with cursor := res.cursor, inventory := res.inventory } ∧
          (res.txState ≠ TxState.TxStateDeferred →
            transmitted out.2 =
              [some [Written.windowTransaction windowId txId
                      (decide (res.txState = TxState.TxStateAccepted)),
                    Written.slotUpdate res.cursor env.WindowIdCursor env.SlotIdCursor]]) ∧
          (res.txState = TxState.TxStateDeferred → transmitted out.2 = [])) ∧
      (∀ w, windowId ≠ env.WindowIdInventory → p.curWindow = some w →
        env.GetWindowId w = windowId →
        let res := env.windowClick w p.inventory slotId p.cursor rightClick shiftClick txId
          expected
        out.1 = { p with cursor := res.cursor, inventory := res.inventory,
                         curWindow := some res.window } ∧
          (res.txState ≠ TxState.TxStateDeferred →
            transmitted out.2 =
              [some [Written.windowTransaction windowId txId
                      (decide (res.txState = TxState.TxStateAccepted)),
                    Written.slotUpdate res.cursor env.WindowIdCursor env.SlotIdCursor]]) ∧
          (res.txState = TxState.TxStateDeferred → transmitted out.2 = [])) ∧
      (windowId ≠ env.WindowIdInventory →
        (∀ w, p.curWindow = some w → env.GetWindowId w ≠ windowId) →
        out.1 = p ∧
          transmitted out.2 =
            [some [Written.windowTransaction windowId txId false,
                  Written.slotUpdate p.cursor env.WindowIdCursor env.SlotIdCursor]]) := by
  intro expected out
  have hmain := PacketWindowClick_after_click env p windowId slotId rightClick txId shiftClick
    expectedSlot expectedItemType hKnown
  refine ⟨?_, ?_, ?_⟩
  · intro hinv res
    have hsel := selectWindow_inventory env p windowId hinv
    rw [hsel] at hmain
    obtain ⟨h1, h2, h3⟩ := hmain
    refine ⟨h1, fun hd => ?_, h3⟩
    have h4 := h2 hd
    rw [h1] at h4
    exact h4
  · intro w hne hw hid res
    have hsel := selectWindow_open env p windowId w hne hw hid
    rw [hsel] at hmain
    obtain ⟨h1, h2, h3⟩ := hmain
    refine ⟨h1, fun hd => ?_, h3⟩
    have h4 := h2 hd
    rw [h1] at h4
    exact h4
  · intro hne hnone
    have hsel := selectWindow_unknown env p windowId hne hnone
    rw [hsel] at hmain
    obtain ⟨h1, h2, _⟩ := hmain
    refine ⟨h1, ?_⟩
    have h3 := h2 (by simp [clickWindow])
    rw [h3, h1]
    rfl

theorem PacketWindowClick_reply_witness :
    tinyPlayer.ItemTypes 5 = some 5 ∧
      transmitted (PacketWindowClick tinyEnv tinyPlayer 0 3 false 9 false ⟨5, 1, 0⟩).2 =
        [some [Written.windowTransaction 0 9 true,
          Written.slotUpdate ⟨(0 : Nat), 0, 0⟩ (-1) (-1)]] ∧
      tinyPlayerOpen.curWindow = some (1, 1) ∧
      transmitted (PacketWindowClick tinyEnv tinyPlayerOpen 1 3 false 9 false ⟨5, 1, 0⟩).2 = [] ∧
      transmitted (PacketWindowClick tinyEnv tinyPlayerOpen 4 3 false 9 false ⟨5, 1, 0⟩).2 =
        [some [Written.windowTransaction 4 9 false,
          Written.slotUpdate ⟨(0 : Nat), 0, 0⟩ (-1) (-1)]] :=
  ⟨by decide,
    ((PacketWindowClick_reply tinyEnv tinyPlayer 0 3 false 9 false ⟨5, 1, 0⟩ 5
      (by decide)).1 rfl).2.1 (by decide),
    rfl,
    ((PacketWindowClick_reply tinyEnv tinyPlayerOpen 1 3 false 9 false ⟨5, 1, 0⟩ 5
      (by decide)).2.1 (1, 1) (by decide) rfl rfl).2.2 rfl,
    ((PacketWindowClick_reply tinyEnv tinyPlayerOpen 4 3 false 9 false ⟨5, 1, 0⟩ 5
      (by decide)).2.2 (by decide) (by decide)).2⟩

/-! ### One secondary window -/

theorem openWindows_append (a b : List (Event σ)) :
    openWindows (a ++ b) = openWindows a + openWindows b := by
  induction a with
  | nil => simp [openWindows]
  | cons e es ih =>
    cases e with
    | newWindow t i r res =>
      cases res with
      | none => simp [openWindows, ih]
      | some w => simp [openWindows, ih]; ring
    | windowFinalize w b => simp [openWindows, ih]; ring
    | _ => simp [openWindows, ih]

theorem closeCurrentWindow_fields (env : Env σ) (p : Player σ) (b : Bool) :
    (closeCurrentWindow env p b).1.curWindow = none ∧
      (closeCurrentWindow env p b).1.remoteInv = none ∧
      (closeCurrentWindow env p b).1.nextWindowId = p.nextWindowId ∧
      (closeCurrentWindow env p b).1.chunkSubs = p.chunkSubs := by
  unfold closeCurrentWindow
  cases hw : p.curWindow <;> cases hr : p.remoteInv <;> simp [hw, hr]

theorem closeCurrentWindow_trace (env : Env σ) (p : Player σ) (b : Bool) :
    (closeCurrentWindow env p b).2 =
      (match p.curWindow with
        | some w => [Event.windowFinalize w b]
        | none => []) ++
      (match p.remoteInv with
        | some ri => [Event.remoteInvClose ri]
        | none => []) ++ [Event.inventoryResubscribe] := by
  unfold closeCurrentWindow
  cases hw : p.curWindow <;> cases hr : p.remoteInv <;> simp [hw, hr]

theorem closeCurrentWindow_inv (env : Env σ) (p : Player σ) (trace : List (Event σ)) (b : Bool)
    (h : WindowInv p trace) :
    WindowInv (closeCurrentWindow env p b).1 (trace ++ (closeCurrentWindow env p b).2) := by
  obtain ⟨hc, hr, _, _⟩ := closeCurrentWindow_fields env p b
  refine ⟨by simp [hc, hr], ?_⟩
  rw [hc, closeCurrentWindow_trace, openWindows_append, openWindows_append, openWindows_append,
    h.2]
  cases hw : p.curWindow <;> cases hri : p.remoteInv <;> simp [openWindows]

theorem selectWindow_curWindow (env : Env σ) (p : Player σ) (windowId : WindowId)
    (w : σ.Window) (h : (selectWindow env p windowId).1 = ClickedWindow.curWindow w) :
    p.curWindow = some w := by
  unfold selectWindow at h
  split at h
  · cases h
  · cases hw : p.curWindow with
    | none => simp [hw] at h
    | some w0 =>
      simp only [hw] at h
      split at h
      · simp only [ClickedWindow.curWindow.injEq] at h
        rw [h]
      · cases h

theorem openWindows_selectWindow (env : Env σ) (p : Player σ) (windowId : WindowId) :
    openWindows (selectWindow env p windowId).2 = 0 := by
  unfold selectWindow
  split
  · rfl
  · split
    · split <;> rfl
    · rfl

theorem clickWindow_fields (env : Env σ) (p : Player σ) (cw : ClickedWindow σ)
    (slotId : SlotId) (rightClick shiftClick : Bool) (txId : TxId) (e : Slot σ.ItemType)
    (hcw : ∀ w, cw = ClickedWindow.curWindow w → p.curWindow = some w) :
    (clickWindow env p cw slotId rightClick shiftClick txId e).2.1.curWindow.isSome
        = p.curWindow.isSome ∧
      (clickWindow env p cw slotId rightClick shiftClick txId e).2.1.remoteInv = p.remoteInv ∧
      (clickWindow env p cw slotId rightClick shiftClick txId e).2.1.nextWindowId
        = p.nextWindowId ∧
      openWindows (clickWindow env p cw slotId rightClick shiftClick txId e).2.2 = 0 := by
  cases cw with
  | unknown => simp [clickWindow, openWindows]
  | inventory => simp [clickWindow, openWindows]
  | curWindow w => simp [clickWindow, openWindows, hcw w rfl]

theorem openWindows_TransmitPacket (packet : Option (List (Written σ))) :
    openWindows (TransmitPacket packet) = 0 := by
  cases packet <;> rfl

theorem PacketWindowClick_fields (env : Env σ) (p : Player σ) (windowId : WindowId)
    (slotId : SlotId) (rightClick : Bool) (txId : TxId) (shiftClick : Bool)
    (expectedSlot : WindowSlot) :
    (PacketWindowClick env p windowId slotId rightClick txId shiftClick
        expectedSlot).1.curWindow.isSome = p.curWindow.isSome ∧
      (PacketWindowClick env p windowId slotId rightClick txId shiftClick
        expectedSlot).1.remoteInv = p.remoteInv ∧
      (PacketWindowClick env p windowId slotId rightClick txId shiftClick
        expectedSlot).1.nextWindowId = p.nextWindowId ∧
      openWindows (PacketWindowClick env p windowId slotId rightClick txId shiftClick
        expectedSlot).2 = 0 := by
  unfold PacketWindowClick
  cases hk : p.ItemTypes expectedSlot.ItemTypeId with
  | none => simp [openWindows_selectWindow]
  | some it =>
    have hc := clickWindow_fields env p (selectWindow env p windowId).1 slotId rightClick
      shiftClick txId (env.Normalize ⟨it, expectedSlot.Count, expectedSlot.Data⟩)
      (fun w hw => selectWindow_curWindow env p windowId w hw)
    simp only []
    split <;>
      simp [openWindows_append, openWindows_selectWindow, openWindows_TransmitPacket, hc.1,
        hc.2.1, hc.2.2.1, hc.2.2.2]

theorem PacketWindowClick_inv (env : Env σ) (p : Player σ) (trace : List (Event σ))
    (windowId : WindowId) (slotId : SlotId) (rightClick : Bool) (txId : TxId) (shiftClick : Bool)
    (expectedSlot : WindowSlot) (h : WindowInv p trace) :
    WindowInv (PacketWindowClick env p windowId slotId rightClick txId shiftClick expectedSlot).1
      (trace ++
        (PacketWindowClick env p windowId slotId rightClick txId shiftClick expectedSlot).2) := by
  obtain ⟨h1, h2, _, h4⟩ := PacketWindowClick_fields env p windowId slotId rightClick txId
    shiftClick expectedSlot
  refine ⟨?_, ?_⟩
  · rw [h1, h2]; exact h.1
  · rw [openWindows_append, h4, h1, h.2]; simp

theorem PacketPlayerPosition_inv (env : Env σ) (p : Player σ) (trace : List (Event σ))
    (position : AbsXyz σ.AbsCoord) (stance : σ.AbsCoord) (onGround : Bool)
    (h : WindowInv p trace) :
    WindowInv (PacketPlayerPosition env p position stance onGround).1
      (trace ++ (PacketPlayerPosition env p position stance onGround).2) := by
  unfold PacketPlayerPosition
  split
  · exact ⟨h.1, by rw [openWindows_append, h.2]; simp [openWindows]⟩
  · exact ⟨h.1, by rw [openWindows_append, h.2]; simp [openWindows]⟩

theorem reqInventorySubscribed_inv (env : Env σ) (p : Player σ) (trace : List (Event σ))
    (block : BlockXyz) (invTypeId : InvTypeId) (slots : List WindowSlot)
    (h : WindowInv p trace) :
    WindowInv (reqInventorySubscribed env p block invTypeId slots).1
      (trace ++ (reqInventorySubscribed env p block invTypeId slots).2) := by
  have hclose := closeCurrentWindow_inv env p trace true h
  obtain ⟨hc, hr, -, -⟩ := closeCurrentWindow_fields env p true
  unfold reqInventorySubscribed
  cases hri : p.remoteInv with
  | none =>
    have hcw : p.curWindow = none := by
      have := h.1
      rw [hri] at this
      simpa using this
    simp only []
    split
    · refine ⟨by simp [hcw, hri], ?_⟩
      simp [openWindows_append, openWindows, h.2, hcw, *]
    · refine ⟨by simp, ?_⟩
      simp [openWindows_append, openWindows, h.2, hcw, openWindows_TransmitPacket, *]
  | some ri =>
    simp only []
    split
    · refine ⟨by simp [hc, hr], ?_⟩
      have h2 := hclose.2
      rw [hc] at h2
      simp [openWindows_append, openWindows, hc, *] at h2 ⊢
      linarith
    · refine ⟨by simp, ?_⟩
      have h2 := hclose.2
      rw [hc] at h2
      simp [openWindows_append, openWindows, hc, openWindows_TransmitPacket, *] at h2 ⊢
      linarith

theorem WindowInv_frame (p q : Player σ) (trace events : List (Event σ))
    (hw : q.curWindow.isSome = p.curWindow.isSome) (hr : q.remoteInv.isSome = p.remoteInv.isSome)
    (he : openWindows events = 0) (h : WindowInv p trace) : WindowInv q (trace ++ events) := by
  refine ⟨by rw [hw, hr]; exact h.1, ?_⟩
  rw [openWindows_append, he, hw, h.2]
  simp

theorem step_inv (env : Env σ) (p : Player σ) (trace : List (Event σ)) (c : Call σ)
    (h : WindowInv p trace) : WindowInv (step env p c).1 (trace ++ (step env p c).2) := by
  cases c with
  | PacketPlayerPosition position stance onGround =>
    exact PacketPlayerPosition_inv env p trace position stance onGround h
  | PacketWindowClose windowId => exact closeCurrentWindow_inv env p trace false h
  | PacketWindowClick windowId slotId rightClick txId shiftClick expectedSlot =>
    exact PacketWindowClick_inv env p trace windowId slotId rightClick txId shiftClick
      expectedSlot h
  | reqInventorySubscribed block invTypeId slots =>
    exact reqInventorySubscribed_inv env p trace block invTypeId slots h
  | reqInventoryUnsubscribed block =>
    show WindowInv (reqInventoryUnsubscribed env p block).1
      (trace ++ (reqInventoryUnsubscribed env p block).2)
    unfold reqInventoryUnsubscribed
    cases hri : p.remoteInv with
    | none => simpa using h
    | some ri =>
      simp only []
      split
      · exact closeCurrentWindow_inv env p trace true h
      · simpa using h
  | closeCurrentWindow b => exact closeCurrentWindow_inv env p trace b h
  | PacketPlayerLook look onGround =>
    exact WindowInv_frame _ _ _ _ rfl rfl (by simp [PacketPlayerLook, openWindows]) h
  | PacketPlayerBlockHit status target face =>
    refine WindowInv_frame _ _ _ _ ?_ ?_ ?_ h <;>
      (simp only [step, PacketPlayerBlockHit]; split <;> simp [openWindows])
  | PacketPlayerBlockInteract itemId target face amount uses =>
    refine WindowInv_frame _ _ _ _ ?_ ?_ ?_ h <;>
      (simp only [step, PacketPlayerBlockInteract]
       split
       · simp [openWindows]
       · split <;> simp [openWindows])
  | PacketHoldingChange slotId =>
    exact WindowInv_frame _ _ _ _ rfl rfl (by simp [step, PacketHoldingChange, openWindows]) h
  | PacketDisconnect reason =>
    exact WindowInv_frame _ _ _ _ rfl rfl
      (by simp [step, PacketDisconnect, sendChatMessage, openWindows]) h
  | reqInventorySlotUpdate block slot slotId =>
    refine WindowInv_frame _ _ _ _ ?_ ?_ ?_ h <;>
      (simp only [step, reqInventorySlotUpdate]
       cases hri : p.remoteInv with
       | none => simp [openWindows, hri]
       | some ri => simp only []; split <;> simp [openWindows, hri])
  | reqInventoryProgressUpdate block prgBarId value =>
    refine WindowInv_frame _ _ _ _ ?_ ?_ ?_ h <;>
      (simp only [step, reqInventoryProgressUpdate]
       cases hri : p.remoteInv with
       | none => simp [openWindows, hri]
       | some ri => simp only []; split <;> simp [openWindows, hri])
  | reqInventoryCursorUpdate block cursor =>
    refine WindowInv_frame _ _ _ _ ?_ ?_ ?_ h <;>
      (simp only [step, reqInventoryCursorUpdate]
       cases hri : p.remoteInv with
       | none => simp [openWindows, hri]
       | some ri =>
         simp only []
         split <;> simp [openWindows, hri, openWindows_TransmitPacket])
  | reqInventoryTxState block txId accepted =>
    refine WindowInv_frame _ _ _ _ ?_ ?_ ?_ h <;>
      (simp only [step, reqInventoryTxState]
       cases hri : p.remoteInv with
       | none => simp [openWindows, hri]
       | some ri =>
         simp only []
         split
         · cases hw : p.curWindow <;> simp [openWindows, hri, hw, openWindows_TransmitPacket]
         · simp [openWindows, hri])
  | reqPlaceHeldItem target wasHeld =>
    refine WindowInv_frame _ _ _ _ ?_ ?_ ?_ h <;>
      (simp only [step, reqPlaceHeldItem]
       split
       · simp [openWindows]
       · split <;> simp [openWindows])
  | reqOfferItem fromChunk entityId item =>
    refine WindowInv_frame _ _ _ _ ?_ ?_ ?_ h <;>
      (simp only [step, reqOfferItem]
       split
       · split <;> simp [openWindows]
       · simp [openWindows])
  | reqGiveItem atPosition item =>
    refine WindowInv_frame _ _ _ _ ?_ ?_ ?_ h <;>
      (simp only [step, reqGiveItem]
       split
       · split <;> simp [openWindows]
       · simp [openWindows])

theorem run_inv (env : Env σ) (calls : List (Call σ)) :
    ∀ (p : Player σ) (trace : List (Event σ)), WindowInv p trace →
      WindowInv (run env p calls).1 (trace ++ (run env p calls).2) := by
  induction calls with
  | nil => intro p trace h; simpa [run] using h
  | cons c cs ih =>
    intro p trace h
    have h1 := step_inv env p trace c h
    have h2 := ih (step env p c).1 (trace ++ (step env p c).2) h1
    simpa [run, List.append_assoc] using h2

theorem Reachable_inv (env : Env σ) (p : Player σ) (trace : List (Event σ))
    (h : Reachable env p trace) : WindowInv p trace := by
  obtain ⟨entityId, itemTypes, name, position, calls, hrun⟩ := h
  have h0 : WindowInv (NewPlayer env entityId itemTypes name position) [] := by
    simp [WindowInv, NewPlayer, openWindows]
  have := run_inv env calls _ _ h0
  rw [hrun] at this
  simpa using this

theorem run_snoc (env : Env σ) (calls : List (Call σ)) (c : Call σ) :
    ∀ p : Player σ, run env p (calls ++ [c]) =
      ((step env (run env p calls).1 c).1, (run env p calls).2 ++ (step env (run env p calls).1 c).2) := by
  induction calls with
  | nil => intro p; simp [run]
  | cons d ds ih => intro p; simp [run, ih, List.append_assoc]

theorem Reachable_step (env : Env σ) (p : Player σ) (trace : List (Event σ)) (c : Call σ)
    (h : Reachable env p trace) : Reachable env (step env p c).1 (trace ++ (step env p c).2) := by
  obtain ⟨entityId, itemTypes, name, position, calls, hrun⟩ := h
  refine ⟨entityId, itemTypes, name, position, calls ++ [c], ?_⟩
  rw [run_snoc, hrun]

theorem openWindows_le_one (env : Env σ) (p : Player σ) (trace : List (Event σ))
    (h : Reachable env p trace) : openWindows trace ≤ 1 := by
  have hi := (Reachable_inv env p trace h).2
  rw [hi]
  split <;> simp

/-- C9: along every trace that reaches a player state at most one secondary
window is open, before and after `reqInventorySubscribed`; and when a window
`w` is open in a reachable state, `reqInventorySubscribed` first finalizes `w`
with a close packet and closes the old remote inventory, only then calls
`NewWindow`, and ends with the new window as the current one, or with no
window and no remote inventory when `NewWindow` returns nil. -/
theorem reqInventorySubscribed_single_window (env : Env σ) (p : Player σ)
    (trace : List (Event σ)) (block : BlockXyz) (invTypeId : InvTypeId)
    (slots : List WindowSlot) (hReach : Reachable env p trace) :
    openWindows trace ≤ 1 ∧
      openWindows (trace ++ (reqInventorySubscribed env p block invTypeId slots).2) ≤ 1 ∧
      ∀ w, p.curWindow = some w → ∃ ri, p.remoteInv = some ri ∧
        let newInv := env.NewRemoteInventory block p.chunkSubs slots
        let created := (env.NewWindow (closeCurrentWindow env p true).1.inventory invTypeId
          p.nextWindowId newInv).1
        let out := reqInventorySubscribed env p block invTypeId slots
        out.2 =
            [Event.windowFinalize w true, Event.remoteInvClose ri, Event.inventoryResubscribe,
              Event.newRemoteInventory block slots,
              Event.newWindow invTypeId p.nextWindowId newInv created] ++
            (match created with
              | none => []
              | some w1 =>
                [Event.txQueueSend (some [Written.windowOpen w1, Written.windowItems w1])]) ∧
          out.1.curWindow = created ∧
          (created = none → out.1.remoteInv = none) ∧
          (created ≠ none → out.1.remoteInv = some newInv) := by
  refine ⟨openWindows_le_one env p trace hReach, ?_, ?_⟩
  · exact openWindows_le_one env _ _
      (Reachable_step env p trace (Call.reqInventorySubscribed block invTypeId slots) hReach)
  · intro w hw
    have hinv := (Reachable_inv env p trace hReach).1
    rw [hw] at hinv
    cases hri : p.remoteInv with
    | none => rw [hri] at hinv; simp at hinv
    | some ri =>
      refine ⟨ri, rfl, ?_⟩
      obtain ⟨hc, hr, hn, hs⟩ := closeCurrentWindow_fields env p true
      have ht := closeCurrentWindow_trace env p true
      rw [hw, hri] at ht
      intro newInv created out
      have hout : out = reqInventorySubscribed env p block invTypeId slots := rfl
      unfold reqInventorySubscribed at hout
      simp only [hri, hn, hs] at hout
      cases hcr : created with
      | none =>
        have hcr1 : (env.NewWindow (closeCurrentWindow env p true).1.inventory invTypeId
          p.nextWindowId (env.NewRemoteInventory block p.chunkSubs slots)).1 = none := hcr
        simp only [hcr1] at hout
        rw [hout]
        simp [ht, hc, hr]
      | some w1 =>
        have hcr1 : (env.NewWindow (closeCurrentWindow env p true).1.inventory invTypeId
          p.nextWindowId (env.NewRemoteInventory block p.chunkSubs slots)).1 = some w1 := hcr
        simp only [hcr1] at hout
        rw [hout]
        simp [ht, TransmitPacket, Buffer.Bytes, newInv]

theorem reqInventorySubscribed_single_window_witness :
    Reachable tinyEnv tinyPlayerAtBench.1 tinyPlayerAtBench.2 ∧
      tinyPlayerAtBench.1.curWindow = some (1, 1) ∧
      openWindows (tinyPlayerAtBench.2 ++
        (reqInventorySubscribed tinyEnv tinyPlayerAtBench.1 ⟨4, 5, 6⟩ 1 []).2) ≤ 1 ∧
      (reqInventorySubscribed tinyEnv tinyPlayerAtBench.1 ⟨4, 5, 6⟩ 1 []).1.curWindow
        = some (2, 1) :=
  have hReach : Reachable tinyEnv tinyPlayerAtBench.1 tinyPlayerAtBench.2 :=
    ⟨7, tinyItemTypes, "p", ⟨(0 : Int), (0 : Int), (0 : Int)⟩,
      [Call.reqInventorySubscribed ⟨1, 2, 3⟩ 1 []], rfl⟩
  ⟨hReach, rfl,
    (reqInventorySubscribed_single_window tinyEnv tinyPlayerAtBench.1 tinyPlayerAtBench.2
      ⟨4, 5, 6⟩ 1 [] hReach).2.1,
    match (reqInventorySubscribed_single_window tinyEnv tinyPlayerAtBench.1 tinyPlayerAtBench.2
      ⟨4, 5, 6⟩ 1 [] hReach).2.2 (1, 1) rfl with
    | ⟨_, _, _, hcur, _, _⟩ => hcur⟩

end player

/-! ## Go maps: keys stay distinct -/

namespace GoMap

variable {κ ν : Type} [DecidableEq κ]

omit [DecidableEq κ] in
theorem nodup_keys_filter (l : List (κ × ν)) (q : κ × ν → Bool)
    (h : (l.map Prod.fst).Nodup) : ((l.filter q).map Prod.fst).Nodup :=
  List.Nodup.sublist (List.Sublist.map Prod.fst (List.filter_sublist l)) h

theorem KeysDistinct_delete (m : GoMap κ ν) (k : κ) (h : KeysDistinct m) :
    KeysDistinct (delete m k) := by
  cases m with
  | none => exact h
  | some l => exact nodup_keys_filter l _ h

theorem KeysDistinct_insert (l : List (κ × ν)) (k : κ) (v : ν)
    (h : KeysDistinct (some l)) :
    KeysDistinct (some ((k, v) :: l.filter (fun e => decide (e.1 ≠ k)))) := by
  show (((k, v) :: l.filter (fun e => decide (e.1 ≠ k))).map Prod.fst).Nodup
  rw [List.map_cons, List.nodup_cons]
  refine ⟨?_, nodup_keys_filter l _ h⟩
  intro hmem
  rw [List.mem_map] at hmem
  obtain ⟨e, he, hk⟩ := hmem
  rw [List.mem_filter] at he
  simp at he
  exact he.2 hk

theorem find_filter (l : List (κ × ν)) (k j : κ) (hne : j ≠ k) :
    (l.filter (fun e => decide (e.1 ≠ k))).find? (fun e => decide (e.1 = j))
      = l.find? (fun e => decide (e.1 = j)) := by
  induction l with
  | nil => rfl
  | cons e es ih =>
    by_cases hk : e.1 = k
    · have hj : ¬ e.1 = j := fun h => hne (h ▸ hk)
      rw [List.filter_cons_of_neg (by simp [hk]), ih, List.find?_cons_of_neg _ (by simp [hj])]
    · rw [List.filter_cons_of_pos (by simp [hk])]
      by_cases hj : e.1 = j
      · rw [List.find?_cons_of_pos _ (by simp [hj]), List.find?_cons_of_pos _ (by simp [hj])]
      · rw [List.find?_cons_of_neg _ (by simp [hj]), List.find?_cons_of_neg _ (by simp [hj]), ih]

end GoMap

/-! ## The workbench: broadcast, click reply, subscription -/

namespace block

variable {IT Inv : Type}

theorem filter_player (l : List (EntityId × IPlayerConnection)) (player : IPlayerConnection)
    (hnd : (l.map Prod.fst).Nodup) (hco : ∀ e ∈ l, e.2.EntityId = e.1) :
    l.filter (fun e => decide (e.2 = player)) =
      if (player.EntityId, player) ∈ l then [(player.EntityId, player)] else [] := by
  induction l with
  | nil => simp
  | cons e es ih =>
    rw [List.map_cons, List.nodup_cons] at hnd
    have hes := ih hnd.2 (fun x hx => hco x (List.mem_cons_of_mem _ hx))
    have he := hco e (List.mem_cons_self _ _)
    by_cases hp : e.2 = player
    · have hE : e = (player.EntityId, player) := by
        apply Prod.ext
        · show e.1 = player.EntityId
          rw [← he, hp]
        · exact hp
      have hnot : (player.EntityId, player) ∉ es := by
        intro hmem
        apply hnd.1
        rw [List.mem_map]
        exact ⟨(player.EntityId, player), hmem, by rw [hE]⟩
      rw [List.filter_cons, hes]
      simp [hp, hnot, hE]
    · have hE : ¬ (player.EntityId, player) = e := by
        intro h
        apply hp
        rw [← h]
      rw [List.filter_cons, hes]
      simp [hp, hE]

theorem received_map (l : List (EntityId × IPlayerConnection)) (player : IPlayerConnection)
    (f : EntityId × IPlayerConnection → Event IT) (hf : ∀ e, addressee (f e) = some e.2) :
    received player (l.map f) = (l.filter (fun e => decide (e.2 = player))).map f := by
  induction l with
  | nil => rfl
  | cons e es ih =>
    unfold received at ih ⊢
    by_cases hp : e.2 = player
    · simp [List.filter_cons, hf, hp, ih]
    · simp [List.filter_cons, hf, hp, ih]

/-- C5: a `SlotUpdate(slot, slotId)` makes, on every subscribed player, exactly
one call, a `ReqInventorySlotUpdate` with the block location, the slot and the
slot id, and no call on any other player; the trace has one call per
subscriber. -/
theorem SlotUpdate_broadcast (extra : workbenchExtra Inv) (slot : Slot IT) (slotId : SlotId)
    (player : IPlayerConnection) (hOk : SubscribersOk extra) :
    (Subscribed extra player →
        received player (SlotUpdate extra slot slotId) =
          [Event.ReqInventorySlotUpdate player extra.instance_.BlockLoc slot slotId]) ∧
      (¬ Subscribed extra player → received player (SlotUpdate extra slot slotId) = []) ∧
      (SlotUpdate extra slot slotId).length = GoMap.len extra.subscribers ∧
      ∀ e ∈ SlotUpdate extra slot slotId, ∃ q, Subscribed extra q ∧
        e = Event.ReqInventorySlotUpdate q extra.instance_.BlockLoc slot slotId := by
  have hrec : received player (SlotUpdate extra slot slotId) =
      (if (player.EntityId, player) ∈ GoMap.entries extra.subscribers
        then [(player.EntityId, player)] else []).map
        (fun e => Event.ReqInventorySlotUpdate e.2 extra.instance_.BlockLoc slot slotId) := by
    unfold SlotUpdate
    rw [received_map (GoMap.entries extra.subscribers) player
      (fun e => Event.ReqInventorySlotUpdate e.2 extra.instance_.BlockLoc slot slotId)
      (fun _ => rfl), filter_player _ _ hOk.1 hOk.2]
  refine ⟨?_, ?_, ?_, ?_⟩
  · intro hs
    unfold Subscribed at hs
    rw [hrec, if_pos hs]
    rfl
  · intro hs
    unfold Subscribed at hs
    rw [hrec, if_neg hs]
    rfl
  · simp [SlotUpdate, GoMap.len]
  · intro e he
    unfold SlotUpdate at he
    rw [List.mem_map] at he
    obtain ⟨x, hx, hxe⟩ := he
    refine ⟨x.2, ?_, hxe.symm⟩
    unfold Subscribed
    rw [hOk.2 x hx]
    exact hx

theorem SlotUpdate_broadcast_witness :
    SubscribersOk benchAB ∧ Subscribed benchAB playerA ∧ Subscribed benchAB playerB ∧
      received playerA (SlotUpdate benchAB planks 1) =
        [Event.ReqInventorySlotUpdate playerA benchBlock.BlockLoc planks 1] ∧
      received playerB (SlotUpdate benchAB planks 1) =
        [Event.ReqInventorySlotUpdate playerB benchBlock.BlockLoc planks 1] :=
  have hOk : SubscribersOk benchAB := by
    unfold SubscribersOk GoMap.KeysDistinct
    decide
  have hA : Subscribed benchAB playerA := by unfold Subscribed; decide
  have hB : Subscribed benchAB playerB := by unfold Subscribed; decide
  ⟨hOk, hA, hB, (SlotUpdate_broadcast benchAB planks 1 playerA hOk).1 hA,
    (SlotUpdate_broadcast benchAB planks 1 playerB hOk).1 hB⟩

theorem isReply_relayUpdates (extra : workbenchExtra Inv) (updates : List (Slot IT × SlotId)) :
    (relayUpdates extra updates).filter isReply = [] := by
  rw [List.filter_eq_nil_iff]
  intro e he
  unfold relayUpdates at he
  rw [List.mem_flatten] at he
  obtain ⟨l, hl, hel⟩ := he
  rw [List.mem_map] at hl
  obtain ⟨u, _, hu⟩ := hl
  rw [← hu] at hel
  unfold SlotUpdate at hel
  rw [List.mem_map] at hel
  obtain ⟨x, _, hx⟩ := hel
  rw [← hx]
  simp [isReply]

/-- C6: of the calls `workbenchExtra.Click` makes, the cursor updates and
transaction statuses are exactly two, both on the clicking player and with the
block's location: first the cursor update carrying the cursor the inventory's
click left, then the transaction status carrying the click's txId, accepted
being true exactly when the inventory answered Accepted.  No other player gets
a cursor update or a transaction status. -/
theorem Click_reply (env : Env IT Inv) (extra : workbenchExtra Inv)
    (player : IPlayerConnection) (slotId : SlotId) (cursor : Slot IT)
    (rightClick shiftClick : Bool) (txId : TxId) (expectedSlot : Slot IT) :
    let res := env.Click extra.inv slotId cursor rightClick shiftClick txId expectedSlot
    let out := Click env extra player slotId cursor rightClick shiftClick txId expectedSlot
    out.2.2.filter isReply =
        [Event.ReqInventoryCursorUpdate player extra.instance_.BlockLoc res.cursor,
          Event.ReqInventoryTxState player extra.instance_.BlockLoc txId
            (decide (res.txState = TxState.TxStateAccepted))] ∧
      out.2.1 = res.cursor ∧
      out.1.inv = res.inv ∧
      ∀ q, q ≠ player → (received q out.2.2).filter isReply = [] := by
  intro res out
  have h1 : out.2.2.filter isReply =
      [Event.ReqInventoryCursorUpdate player extra.instance_.BlockLoc res.cursor,
        Event.ReqInventoryTxState player extra.instance_.BlockLoc txId
          (decide (res.txState = TxState.TxStateAccepted))] := by
    show (relayUpdates extra res.updates ++ _).filter isReply = _
    rw [List.filter_append, isReply_relayUpdates]
    simp [isReply]
  refine ⟨h1, rfl, rfl, ?_⟩
  intro q hq
  unfold received
  rw [List.filter_comm, h1]
  have hq1 : ¬ player = q := fun h => hq h.symm
  simp [addressee, isReply, hq1]

/-! ### Subscribing -/

theorem filter_key_insert (l : List (EntityId × IPlayerConnection)) (k : EntityId)
    (v : IPlayerConnection) :
    ((k, v) :: l.filter (fun e => decide (e.1 ≠ k))).filter (fun e => decide (e.1 = k))
      = [(k, v)] := by
  rw [List.filter_cons_of_pos (by simp), List.filter_filter]
  congr 1
  rw [List.filter_eq_nil_iff]
  intro e _
  simp

theorem SubscribersOk_insert (extra : workbenchExtra Inv) (l : List (EntityId × IPlayerConnection))
    (player : IPlayerConnection) (hs : extra.subscribers = some l) (hOk : SubscribersOk extra) :
    SubscribersOk { extra with
      subscribers := some ((player.EntityId, player) ::
        l.filter (fun e => decide (e.1 ≠ player.EntityId))) } := by
  obtain ⟨hk, hc⟩ := hOk
  rw [hs] at hk hc
  refine ⟨GoMap.KeysDistinct_insert l _ _ hk, ?_⟩
  intro e he
  change e ∈ (player.EntityId, player) :: l.filter (fun e => decide (e.1 ≠ player.EntityId))
    at he
  rw [List.mem_cons] at he
  rcases he with he | he
  · rw [he]
  · exact hc e (List.mem_of_mem_filter he)

/-- C7: on a workbench whose subscriber map is allocated (any workbench that
has not been destroyed), `AddSubscriber(P)` does not fail; it stores P under
its entity id, once, and leaves every other entry as it was; its calls are
`AddOnUnsubscribe` for P's entity id on the chunk and then one
`ReqInventorySubscribed` on P with the block's location, the workbench
inventory type and the slots `MakeProtoSlots` returns for the inventory as it
is; the inventory is not changed. -/
theorem AddSubscriber_snapshot (env : Env IT Inv) (extra : workbenchExtra Inv)
    (player : IPlayerConnection) (hAlloc : extra.subscribers ≠ none) :
    ∃ extra1 : workbenchExtra Inv,
      AddSubscriber env extra player = Except.ok (extra1,
        [Event.AddOnUnsubscribe player.EntityId,
          Event.ReqInventorySubscribed player extra.instance_.BlockLoc env.InvTypeIdWorkbench
            (env.MakeProtoSlots extra.inv)]) ∧
      extra1.inv = extra.inv ∧
      extra1.instance_ = extra.instance_ ∧
      GoMap.lookup extra1.subscribers player.EntityId = some player ∧
      (∀ k, k ≠ player.EntityId →
        GoMap.lookup extra1.subscribers k = GoMap.lookup extra.subscribers k) ∧
      (GoMap.entries extra1.subscribers).filter (fun e => decide (e.1 = player.EntityId))
        = [(player.EntityId, player)] ∧
      Subscribed extra1 player ∧
      (SubscribersOk extra → SubscribersOk extra1) := by
  cases hs : extra.subscribers with
  | none => exact absurd hs hAlloc
  | some l =>
    refine ⟨{ extra with
      subscribers := some ((player.EntityId, player) ::
        l.filter (fun e => decide (e.1 ≠ player.EntityId))) }, ?_, rfl, rfl, ?_, ?_, ?_, ?_, ?_⟩
    · simp [AddSubscriber, GoMap.insert, hs]
    · simp [GoMap.lookup, GoMap.entries]
    · intro k hk
      have h1 : ¬ player.EntityId = k := fun h => hk h.symm
      show Option.map Prod.snd (List.find? (fun e => decide (e.1 = k))
        ((player.EntityId, player) :: l.filter (fun e => decide (e.1 ≠ player.EntityId)))) = _
      rw [List.find?_cons_of_neg _ (by simp [h1]), GoMap.find_filter l _ _ hk]
      rfl
    · exact filter_key_insert l _ _
    · exact List.mem_cons_self _ _
    · exact SubscribersOk_insert extra l player hs

theorem AddSubscriber_snapshot_witness :
    benchA.subscribers ≠ none ∧
      ∃ extra1 : workbenchExtra SpecInv,
        AddSubscriber specEnv benchA playerB = Except.ok (extra1,
          [Event.AddOnUnsubscribe 102,
            Event.ReqInventorySubscribed playerB benchBlock.BlockLoc 1
              (specMakeProtoSlots benchA.inv)]) ∧
        extra1.inv = benchA.inv ∧ Subscribed extra1 playerB :=
  ⟨by decide,
    match AddSubscriber_snapshot specEnv benchA playerB (by decide) with
    | ⟨extra1, h1, h2, _, _, _, _, h7, _⟩ => ⟨extra1, h1, h2, h7⟩⟩

/-! ### Destroying -/

theorem received_append (player : IPlayerConnection) (a b : List (Event IT)) :
    received player (a ++ b) = received player a ++ received player b := by
  simp [received]

theorem received_Destroyed (l : List (EntityId × IPlayerConnection)) (loc : BlockXyz)
    (player : IPlayerConnection) :
    received player ((l.map (fun e =>
        [(Event.ReqInventoryUnsubscribed e.2 loc : Event IT),
          Event.RemoveOnUnsubscribe e.2.EntityId])).flatten)
      = (l.filter (fun e => decide (e.2 = player))).map
          (fun e => Event.ReqInventoryUnsubscribed e.2 loc) := by
  induction l with
  | nil => rfl
  | cons e es ih =>
    rw [List.map_cons, List.flatten_cons, received_append, ih]
    by_cases hp : e.2 = player
    · simp [received, addressee, hp]
    · simp [received, addressee, hp]

theorem deregistered_Destroyed (l : List (EntityId × IPlayerConnection)) (loc : BlockXyz) :
    deregistered ((l.map (fun e =>
        [(Event.ReqInventoryUnsubscribed e.2 loc : Event IT),
          Event.RemoveOnUnsubscribe e.2.EntityId])).flatten)
      = l.map (fun e => e.2.EntityId) := by
  induction l with
  | nil => rfl
  | cons e es ih =>
    rw [List.map_cons, List.flatten_cons]
    simp [deregistered, ih]

/-- C8: `Destroyed` leaves the subscriber map nil, whatever it held; it makes
on every subscribed player exactly one call, `ReqInventoryUnsubscribed` with
the block's location, and none on any other player, and it deregisters the
on-unsubscribe callback of every subscriber's entity id exactly once. -/
theorem Destroyed_notifies_all (extra : workbenchExtra Inv) (player : IPlayerConnection)
    (hOk : SubscribersOk extra) :
    let out : workbenchExtra Inv × List (Event IT) := Destroyed extra
    out.1.subscribers = none ∧
      GoMap.len out.1.subscribers = 0 ∧
      out.1.inv = extra.inv ∧
      (Subscribed extra player →
        received player out.2 =
          [Event.ReqInventoryUnsubscribed player extra.instance_.BlockLoc] ∧
        (deregistered out.2).count player.EntityId = 1) ∧
      (¬ Subscribed extra player → received player out.2 = []) ∧
      deregistered out.2 = (GoMap.entries extra.subscribers).map Prod.fst := by
  intro out
  have hrec : received player out.2 =
      (if (player.EntityId, player) ∈ GoMap.entries extra.subscribers
        then [(player.EntityId, player)] else []).map
        (fun e => Event.ReqInventoryUnsubscribed e.2 extra.instance_.BlockLoc) := by
    show received player ((List.map _ (GoMap.entries extra.subscribers)).flatten) = _
    rw [received_Destroyed, filter_player _ _ hOk.1 hOk.2]
  have hder : deregistered out.2 = (GoMap.entries extra.subscribers).map Prod.fst := by
    show deregistered ((List.map _ (GoMap.entries extra.subscribers)).flatten) = _
    rw [deregistered_Destroyed]
    exact List.map_congr_left (fun e he => hOk.2 e he)
  refine ⟨rfl, rfl, rfl, ?_, ?_, hder⟩
  · intro hs
    unfold Subscribed at hs
    refine ⟨?_, ?_⟩
    · rw [hrec, if_pos hs]
      rfl
    · rw [hder]
      exact List.count_eq_one_of_mem hOk.1 (List.mem_map_of_mem Prod.fst hs)
  · intro hs
    unfold Subscribed at hs
    rw [hrec, if_neg hs]
    rfl

theorem Destroyed_notifies_all_witness :
    SubscribersOk benchAB ∧ Subscribed benchAB playerA ∧
      received playerA (Destroyed benchAB : workbenchExtra SpecInv × List (Event Nat)).2 =
        [Event.ReqInventoryUnsubscribed playerA benchBlock.BlockLoc] :=
  have hOk : SubscribersOk benchAB := by
    unfold SubscribersOk GoMap.KeysDistinct
    decide
  have hA : Subscribed benchAB playerA := by unfold Subscribed; decide
  ⟨hOk, hA, ((Destroyed_notifies_all benchAB playerA hOk).2.2.2.1 hA).1⟩

/-! ### Unsubscribing and ejection -/

theorem relayUpdates_no_subscribers (extra : workbenchExtra Inv)
    (updates : List (Slot IT × SlotId)) (h : GoMap.entries extra.subscribers = []) :
    relayUpdates extra updates = [] := by
  induction updates with
  | nil => rfl
  | cons u us ih =>
    unfold relayUpdates at ih ⊢
    rw [List.map_cons, List.flatten_cons, ih]
    simp [SlotUpdate, h]

theorem spawned_spawns (instance_ : BlockInstance) (items : List (Slot IT)) :
    spawned (items.map (fun slot =>
      Event.spawnItemInBlock instance_ slot.ItemType slot.Count slot.Data))
      = items.map (fun slot => (instance_, slot)) := by
  induction items with
  | nil => rfl
  | cons s ss ih => simp [spawned, ih]

/-- C3: on a workbench whose only subscriber is P, `RemoveSubscriber` with P's
entity id leaves the subscriber map empty, deregisters P's on-unsubscribe
callback and then spawns at the block, once each and in order, the items
`TakeAllItems` returned, with their item type, count and data; the inventory
is the one `TakeAllItems` leaves, which holds no items.  When a subscriber
remains after the removal, the only call is the deregistration and the
inventory is unchanged. -/
theorem RemoveSubscriber_ejects (env : Env IT Inv) (extra : workbenchExtra Inv)
    (player : IPlayerConnection)
    (hTake : ∀ inv, holdsNoItems env (env.TakeAllItems inv).inv) :
    (extra.subscribers = some [(player.EntityId, player)] →
        let out := RemoveSubscriber env extra player.EntityId
        let taken := env.TakeAllItems extra.inv
        out.1.subscribers = some [] ∧
          out.2 = Event.RemoveOnUnsubscribe player.EntityId ::
            taken.items.map (fun slot =>
              Event.spawnItemInBlock extra.instance_ slot.ItemType slot.Count slot.Data) ∧
          deregistered out.2 = [player.EntityId] ∧
          spawned out.2 = taken.items.map (fun slot => (extra.instance_, slot)) ∧
          out.1.inv = taken.inv ∧
          holdsNoItems env out.1.inv) ∧
      (GoMap.len (GoMap.delete extra.subscribers player.EntityId) ≠ 0 →
        let out := RemoveSubscriber env extra player.EntityId
        out.1.subscribers = GoMap.delete extra.subscribers player.EntityId ∧
          out.2 = [Event.RemoveOnUnsubscribe player.EntityId] ∧
          spawned out.2 = [] ∧
          out.1.inv = extra.inv) := by
  refine ⟨?_, ?_⟩
  · intro hs out taken
    have hdel : GoMap.delete extra.subscribers player.EntityId = some [] := by
      rw [hs]
      simp [GoMap.delete]
    have hrelay : relayUpdates
        ({ extra with subscribers := some [] } : workbenchExtra Inv)
        (env.TakeAllItems extra.inv).updates = ([] : List (Event IT)) :=
      relayUpdates_no_subscribers _ _ rfl
    have hout : out = ({ extra with subscribers := some [], inv := taken.inv },
        Event.RemoveOnUnsubscribe player.EntityId ::
          taken.items.map (fun slot =>
            Event.spawnItemInBlock extra.instance_ slot.ItemType slot.Count slot.Data)) := by
      show RemoveSubscriber env extra player.EntityId = _
      unfold RemoveSubscriber EjectItems
      simp only [hdel, GoMap.len, GoMap.entries]
      simp [taken, hrelay]
    rw [hout]
    refine ⟨rfl, rfl, ?_, ?_, rfl, hTake extra.inv⟩
    · simp only [deregistered]
      have hnone : ∀ l : List (Slot IT), deregistered (l.map (fun slot =>
          Event.spawnItemInBlock extra.instance_ slot.ItemType slot.Count slot.Data)) = [] := by
        intro l
        induction l with
        | nil => rfl
        | cons s ss ih => simp [deregistered, ih]
      rw [hnone]
    · simp only [spawned]
      exact spawned_spawns extra.instance_ taken.items
  · intro hlen out
    have hout : out = ({ extra with
        subscribers := GoMap.delete extra.subscribers player.EntityId },
        [Event.RemoveOnUnsubscribe player.EntityId]) := by
      show RemoveSubscriber env extra player.EntityId = _
      unfold RemoveSubscriber
      simp only [if_neg hlen]
    rw [hout]
    exact ⟨rfl, rfl, rfl, rfl⟩

theorem RemoveSubscriber_ejects_witness :
    (∀ inv, holdsNoItems specEnv (specEnv.TakeAllItems inv).inv) ∧
      benchA.subscribers = some [(playerA.EntityId, playerA)] ∧
      (RemoveSubscriber specEnv benchA playerA.EntityId).2 =
        [Event.RemoveOnUnsubscribe 101, Event.spawnItemInBlock benchBlock 5 4 0] ∧
      GoMap.len (GoMap.delete benchAB.subscribers playerA.EntityId) ≠ 0 ∧
      (RemoveSubscriber specEnv benchAB playerA.EntityId).1.inv = benchAB.inv :=
  have hTake : ∀ inv, holdsNoItems specEnv (specEnv.TakeAllItems inv).inv := by
    intro inv
    show (inv.map (fun _ => specEmptySlot)).filter (fun s => decide (0 < s.Count)) = []
    rw [List.filter_eq_nil_iff]
    intro s hs
    rw [List.mem_map] at hs
    obtain ⟨_, _, h⟩ := hs
    rw [← h]
    decide
  ⟨hTake, rfl,
    ((RemoveSubscriber_ejects specEnv benchA playerA hTake).1 rfl).2.1,
    by decide,
    ((RemoveSubscriber_ejects specEnv benchAB playerA hTake).2 (by decide)).2.2.2⟩

/-- C4: the chunk-unsubscribe callback `Unsubscribed` takes the subscriber
count of a workbench from one to zero and ejects nothing.  The workbench with
the single subscriber A and four planks is reached from a new workbench by
`AddSubscriber(A)` and an accepted click of A; after `Unsubscribed(A)` it has
no subscriber and still holds the planks, where `RemoveSubscriber(A)` on the
same state spawns them in the world. -/
theorem Unsubscribed_keeps_items :
    (∃ (e1 : workbenchExtra SpecInv) (ev : List (Event Nat)),
        AddSubscriber specEnv (newWorkbenchExtra specEnv benchBlock) playerA = Except.ok (e1, ev) ∧
        Click specEnv e1 playerA 1 planks false false 7 specEmptySlot =
          (benchA, specEmptySlot,
            [Event.ReqInventorySlotUpdate playerA benchBlock.BlockLoc planks 1,
              Event.ReqInventoryCursorUpdate playerA benchBlock.BlockLoc specEmptySlot,
              Event.ReqInventoryTxState playerA benchBlock.BlockLoc 7 true])) ∧
      GoMap.len benchA.subscribers = 1 ∧
      GoMap.len (Unsubscribed benchA playerA.EntityId).subscribers = 0 ∧
      (Unsubscribed benchA playerA.EntityId).inv = benchA.inv ∧
      (specEnv.TakeAllItems (Unsubscribed benchA playerA.EntityId).inv).items = [planks] ∧
      ¬ holdsNoItems specEnv (Unsubscribed benchA playerA.EntityId).inv ∧
      spawned (RemoveSubscriber specEnv benchA playerA.EntityId).2 = [(benchBlock, planks)] ∧
      holdsNoItems specEnv (RemoveSubscriber specEnv benchA playerA.EntityId).1.inv ∧
      Reachable specEnv (Unsubscribed benchA playerA.EntityId) := by
  refine ⟨⟨_, _, rfl, by decide⟩, by decide, by decide, rfl, by decide, ?_, by decide, ?_, ?_⟩
  · unfold holdsNoItems
    decide
  · unfold holdsNoItems
    decide
  · have h0 : Reachable specEnv (newWorkbenchExtra specEnv benchBlock) :=
      Reachable.newWorkbenchExtra benchBlock
    have h1 := Reachable.AddSubscriber _ _ playerA _ h0 rfl
    have h2 : Reachable specEnv benchA :=
      Reachable.Click _ playerA 1 planks false false 7 specEmptySlot h1
    exact Reachable.Unsubscribed benchA playerA.EntityId h2

theorem Unsubscribed_never_ejects (extra : workbenchExtra Inv) (entityId : EntityId) :
    (Unsubscribed extra entityId).inv = extra.inv ∧
      (Unsubscribed extra entityId).subscribers = GoMap.delete extra.subscribers entityId :=
  ⟨rfl, rfl⟩

/-! ### The aspect without a workbench -/

theorem InventoryClick_without_workbench (env : Env IT Inv) (chunk : ChunkExtras Inv)
    (instance_ : BlockInstance) (player : IPlayerConnection) (slotId : SlotId)
    (cursor : Slot IT) (rightClick shiftClick : Bool) (txId : TxId) (expectedSlot : Slot IT)
    (hNone : ∀ extra, chunk.BlockExtra instance_.SubLoc ≠ some (BlockExtra.workbench extra)) :
    InventoryClick env chunk instance_ player slotId cursor rightClick shiftClick txId
      expectedSlot = Except.error Panic.nilDereference := by
  have hw : (invWrapper env chunk instance_ false :
      Option (workbenchExtra Inv) × ChunkExtras Inv × List (Event IT)) = (none, chunk, []) := by
    unfold invWrapper
    split
    · rename_i extra heq
      exact absurd heq (hNone extra)
    · rfl
  unfold InventoryClick
  simp only [hw]
  rfl

/-- C10: on a block whose extra data is absent, and on one whose extra data is
not a workbench, `WorkbenchAspect.InventoryClick` panics with a nil
dereference (it reads the location through the nil `extra`) before it makes
any call on the player: no transaction status and no cursor update is sent. -/
theorem InventoryClick_nil_extra_panics :
    InventoryClick specEnv [] benchBlock playerA 1 planks false false 7 specEmptySlot
        = Except.error Panic.nilDereference ∧
      InventoryClick specEnv [(benchBlock.SubLoc, BlockExtra.other 3)] benchBlock playerA 1
        planks false false 7 specEmptySlot = Except.error Panic.nilDereference :=
  ⟨rfl, rfl⟩

/-! ### The subscriber map stays well formed -/

theorem SubscribersOk_new (env : Env IT Inv) (instance_ : BlockInstance) :
    SubscribersOk (newWorkbenchExtra env instance_) := by
  refine ⟨?_, ?_⟩
  · show (([] : List (EntityId × IPlayerConnection)).map Prod.fst).Nodup
    simp
  · intro e he
    cases he

theorem SubscribersOk_delete (extra : workbenchExtra Inv) (inv : Inv) (entityId : EntityId)
    (hOk : SubscribersOk extra) :
    SubscribersOk { extra with inv := inv,
                               subscribers := GoMap.delete extra.subscribers entityId } := by
  refine ⟨GoMap.KeysDistinct_delete _ _ hOk.1, ?_⟩
  intro e he
  apply hOk.2
  cases hs : extra.subscribers with
  | none => rw [hs] at he; cases he
  | some l =>
    rw [hs] at he
    exact List.mem_of_mem_filter he

theorem SubscribersOk_Unsubscribed (extra : workbenchExtra Inv) (entityId : EntityId)
    (hOk : SubscribersOk extra) : SubscribersOk (Unsubscribed extra entityId) :=
  SubscribersOk_delete extra extra.inv entityId hOk

theorem SubscribersOk_RemoveSubscriber (env : Env IT Inv) (extra : workbenchExtra Inv)
    (entityId : EntityId) (hOk : SubscribersOk extra) :
    SubscribersOk (RemoveSubscriber env extra entityId).1 := by
  unfold RemoveSubscriber
  simp only []
  split
  · exact SubscribersOk_delete extra _ entityId hOk
  · exact SubscribersOk_delete extra extra.inv entityId hOk

theorem SubscribersOk_Click (env : Env IT Inv) (extra : workbenchExtra Inv)
    (player : IPlayerConnection) (slotId : SlotId) (cursor : Slot IT)
    (rightClick shiftClick : Bool) (txId : TxId) (expectedSlot : Slot IT)
    (hOk : SubscribersOk extra) :
    SubscribersOk (Click env extra player slotId cursor rightClick shiftClick txId
      expectedSlot).1 :=
  hOk

theorem SubscribersOk_Destroyed (extra : workbenchExtra Inv) :
    SubscribersOk (Destroyed extra : workbenchExtra Inv × List (Event IT)).1 := by
  refine ⟨?_, ?_⟩
  · show (([] : List (EntityId × IPlayerConnection)).map Prod.fst).Nodup
    simp
  · intro e he
    cases he

theorem SubscribersOk_AddSubscriber (env : Env IT Inv) (extra extra1 : workbenchExtra Inv)
    (player : IPlayerConnection) (events : List (Event IT))
    (h : AddSubscriber env extra player = Except.ok (extra1, events))
    (hOk : SubscribersOk extra) : SubscribersOk extra1 := by
  cases hs : extra.subscribers with
  | none => simp [AddSubscriber, GoMap.insert, hs] at h
  | some l =>
    simp only [AddSubscriber, GoMap.insert, hs, Except.ok.injEq, Prod.mk.injEq] at h
    rw [← h.1]
    exact SubscribersOk_insert extra l player hs hOk

theorem Reachable_SubscribersOk (env : Env IT Inv) (extra : workbenchExtra Inv)
    (h : Reachable env extra) : SubscribersOk extra := by
  induction h with
  | newWorkbenchExtra instance_ => exact SubscribersOk_new env instance_
  | AddSubscriber extra extra1 player events _ hadd ih =>
    exact SubscribersOk_AddSubscriber env extra extra1 player events hadd ih
  | RemoveSubscriber extra entityId _ ih =>
    exact SubscribersOk_RemoveSubscriber env extra entityId ih
  | Unsubscribed extra entityId _ ih => exact SubscribersOk_Unsubscribed extra entityId ih
  | Click extra player slotId cursor rightClick shiftClick txId expectedSlot _ ih => exact ih
  | EjectItems extra _ ih => exact ih
  | Destroyed extra _ _ => exact SubscribersOk_Destroyed extra

theorem Live_Reachable (env : Env IT Inv) (extra : workbenchExtra Inv) (h : Live env extra) :
    Reachable env extra := by
  induction h with
  | newWorkbenchExtra instance_ => exact Reachable.newWorkbenchExtra instance_
  | AddSubscriber extra extra1 player events _ hadd ih =>
    exact Reachable.AddSubscriber extra extra1 player events ih hadd
  | RemoveSubscriber extra entityId _ ih => exact Reachable.RemoveSubscriber extra entityId ih
  | Unsubscribed extra entityId _ ih => exact Reachable.Unsubscribed extra entityId ih
  | Click extra player slotId cursor rightClick shiftClick txId expectedSlot _ ih =>
    exact Reachable.Click extra player slotId cursor rightClick shiftClick txId expectedSlot ih
  | EjectItems extra _ ih => exact Reachable.EjectItems extra ih

theorem Live_allocated (env : Env IT Inv) (extra : workbenchExtra Inv) (h : Live env extra) :
    extra.subscribers ≠ none := by
  induction h with
  | newWorkbenchExtra instance_ => simp [newWorkbenchExtra]
  | AddSubscriber extra extra1 player events _ hadd ih =>
    cases hs : extra.subscribers with
    | none => exact absurd hs ih
    | some l =>
      simp only [AddSubscriber, GoMap.insert, hs, Except.ok.injEq, Prod.mk.injEq] at hadd
      rw [← hadd.1]
      simp
  | RemoveSubscriber extra entityId _ ih =>
    cases hs : extra.subscribers with
    | none => exact absurd hs ih
    | some l =>
      unfold RemoveSubscriber
      simp only []
      split <;> simp [EjectItems, GoMap.delete, hs]
  | Unsubscribed extra entityId _ ih =>
    cases hs : extra.subscribers with
    | none => exact absurd hs ih
    | some l => simp [Unsubscribed, GoMap.delete, hs]
  | Click extra player slotId cursor rightClick shiftClick txId expectedSlot _ ih => exact ih
  | EjectItems extra _ ih => exact ih

end block

/-! ## The player: teardown, dropped requests, window bookkeeping -/

namespace player

variable {σ : Externals}

/-- C11: when the read of the inbound loop returns end of stream or another
error, `receiveLoop` returns, and that is all it does: after end of stream it
has made no call, after another error only the log call.  Nothing is sent to
`onDisconnect`, no sentinel is put on `txQueue` or `mainQueue` and the
connection is not closed. -/
theorem receiveLoop_error_no_teardown (env : Env σ) (p : Player σ)
    (rest : List (ReadResult σ)) :
    receiveLoop env p (ReadResult.EOF :: rest) = Except.ok (p, [], true) ∧
      receiveLoop env p (ReadResult.failed :: rest) = Except.ok (p, [Event.log], true) ∧
      ([Event.log] : List (Event σ)).filter isTeardown = [] ∧
      (PacketDisconnect env p "quit").2.filter isTeardown ≠ [] := by
  refine ⟨rfl, rfl, rfl, ?_⟩
  simp [PacketDisconnect, sendChatMessage, isTeardown, List.filter]

/-- C12: `PacketDisconnect`, for every reason, makes the four teardown calls
once each and in this order: the player's entity id on `onDisconnect`, a nil
sentinel on `txQueue`, a nil sentinel on `mainQueue`, `Close` on the
connection; before them it only logs and broadcasts the leave message, and it
leaves the player as it was. -/
theorem PacketDisconnect_teardown (env : Env σ) (p : Player σ) (reason : String) :
    (PacketDisconnect env p reason).2.filter isTeardown =
        [Event.onDisconnectSend p.EntityId, Event.txQueueSend none, Event.mainQueueSendNil,
          Event.connClose] ∧
      (PacketDisconnect env p reason).2 =
        [Event.log,
          Event.ReqMulticastPlayers (env.curChunkLoc p.chunkSubs) p.EntityId
            (some [Written.chatMessage (p.name ++ " has left")]),
          Event.onDisconnectSend p.EntityId, Event.txQueueSend none, Event.mainQueueSendNil,
          Event.connClose] ∧
      (PacketDisconnect env p reason).1 = p := by
  refine ⟨?_, ?_, rfl⟩
  · simp [PacketDisconnect, sendChatMessage, isTeardown, List.filter]
  · simp [PacketDisconnect, sendChatMessage, Buffer.Bytes]

/-- C13: the expected slot is not ignored.  The same click on the player
inventory, with an expected slot of a known item type (5), is made and
answered with one packet; with an expected slot of an unknown item type (99)
the call returns before the click and nothing is transmitted. -/
theorem PacketWindowClick_expected_slot_matters :
    transmitted (PacketWindowClick tinyEnv tinyPlayer 0 3 false 9 false ⟨5, 1, 0⟩).2 =
        [some [Written.windowTransaction 0 9 true, Written.slotUpdate ⟨(0 : Nat), 0, 0⟩ (-1) (-1)]] ∧
      (PacketWindowClick tinyEnv tinyPlayer 0 3 false 9 false ⟨99, 1, 0⟩).2 = [] ∧
      transmitted (PacketWindowClick tinyEnv tinyPlayer 0 3 false 9 false ⟨5, 1, 0⟩).2 ≠
        transmitted (PacketWindowClick tinyEnv tinyPlayer 0 3 false 9 false ⟨99, 1, 0⟩).2 := by
  have h1 : transmitted (PacketWindowClick tinyEnv tinyPlayer 0 3 false 9 false ⟨5, 1, 0⟩).2 =
      [some [Written.windowTransaction 0 9 true,
        Written.slotUpdate ⟨(0 : Nat), 0, 0⟩ (-1) (-1)]] := rfl
  have h2 : (PacketWindowClick tinyEnv tinyPlayer 0 3 false 9 false ⟨99, 1, 0⟩).2 = [] := rfl
  refine ⟨h1, h2, ?_⟩
  rw [h1, h2]
  simp [transmitted]

theorem PacketWindowClick_unknown_item_type (env : Env σ) (p : Player σ) (windowId : WindowId)
    (slotId : SlotId) (rightClick : Bool) (txId : TxId) (shiftClick : Bool)
    (expectedSlot : WindowSlot) (hUnknown : p.ItemTypes expectedSlot.ItemTypeId = none) :
    PacketWindowClick env p windowId slotId rightClick txId shiftClick expectedSlot =
      (p, (selectWindow env p windowId).2) := by
  simp [PacketWindowClick, hUnknown]

/-- C19: `PacketChatMessage` fails on the empty message: it reads `message[0]`
and panics with an index out of range.  On every other message it does not
fail: when the first character is `'/'` it runs the rest of the message as a
command, otherwise it broadcasts the message as chat. -/
theorem PacketChatMessage_dispatch (env : Env σ) (p : Player σ) (c : Char) (rest : List Char) :
    PacketChatMessage env p "" = Except.error Panic.indexOutOfRange ∧
      PacketChatMessage env p (String.mk ('/' :: rest)) =
        Except.ok (env.runCommand p (String.mk rest), [Event.runCommand (String.mk rest)]) ∧
      (c ≠ '/' →
        PacketChatMessage env p (String.mk (c :: rest)) =
          Except.ok (p, [Event.ReqMulticastPlayers (env.curChunkLoc p.chunkSubs) p.EntityId
            (some [Written.chatMessage (String.mk (c :: rest))])])) := by
  refine ⟨rfl, ?_, ?_⟩
  · simp [PacketChatMessage]
  · intro hc
    simp [PacketChatMessage, hc, sendChatMessage, Buffer.Bytes]

/-- C15: when the shard client lookup for the target returns ok = false,
`PacketPlayerBlockHit` and `reqPlaceHeldItem` make no call at all and
`PacketPlayerBlockInteract` makes none but the log call for an invalid face:
no shard request, nothing on `txQueue`, and the player, its inventory
included, is as it was. -/
theorem not_subscribed_requests_dropped (env : Env σ) (p : Player σ) (target : BlockXyz)
    (status : DigStatus) (face : Face) (itemId : ItemTypeId) (amount : ItemCount)
    (uses : ItemData) (wasHeld : Slot σ.ItemType)
    (hNot : env.ShardClientForBlockXyz p.chunkSubs target = none) :
    PacketPlayerBlockHit env p status target face = (p, []) ∧
      reqPlaceHeldItem env p target wasHeld = (p, []) ∧
      (PacketPlayerBlockInteract env p itemId target face amount uses).1 = p ∧
      ((PacketPlayerBlockInteract env p itemId target face amount uses).2 = [] ∨
        (PacketPlayerBlockInteract env p itemId target face amount uses).2 = [Event.log]) ∧
      (PacketPlayerBlockInteract env p itemId target face amount uses).2.filter isShardRequest
        = [] ∧
      transmitted (PacketPlayerBlockInteract env p itemId target face amount uses).2 = [] := by
  refine ⟨?_, ?_, ?_, ?_, ?_, ?_⟩
  · simp [PacketPlayerBlockHit, hNot]
  · unfold reqPlaceHeldItem
    simp only [hNot]
    split <;> rfl
  · unfold PacketPlayerBlockInteract
    simp only [hNot]
    split <;> rfl
  · unfold PacketPlayerBlockInteract
    simp only [hNot]
    split
    · right; rfl
    · left; rfl
  · unfold PacketPlayerBlockInteract
    simp only [hNot]
    split <;> simp [isShardRequest]
  · unfold PacketPlayerBlockInteract
    simp only [hNot]
    split <;> simp [transmitted]

theorem not_subscribed_requests_dropped_witness :
    tinyEnv.ShardClientForBlockXyz tinyPlayer.chunkSubs ⟨100, 64, 100⟩ = none ∧
      PacketPlayerBlockHit tinyEnv tinyPlayer 0 ⟨100, 64, 100⟩ 1 = (tinyPlayer, []) ∧
      reqPlaceHeldItem tinyEnv tinyPlayer ⟨100, 64, 100⟩ ⟨(0 : Nat), 0, 0⟩ = (tinyPlayer, []) :=
  ⟨by decide,
    (not_subscribed_requests_dropped tinyEnv tinyPlayer ⟨100, 64, 100⟩ 0 1 5 1 0
      ⟨(0 : Nat), 0, 0⟩ (by decide)).1,
    (not_subscribed_requests_dropped tinyEnv tinyPlayer ⟨100, 64, 100⟩ 0 1 5 1 0
      ⟨(0 : Nat), 0, 0⟩ (by decide)).2.1⟩

/-- C16: a second `closeCurrentWindow`, whatever the two values of
`sendClosePacket`, leaves the player as the first call left it, with no
current window and no remote inventory, and makes a single call,
`inventory.Resubscribe`: it finalizes no window, so no close packet is sent,
and closes no remote inventory.  `Resubscribe` is taken to be idempotent. -/
theorem closeCurrentWindow_idempotent (env : Env σ) (p : Player σ) (b1 b2 : Bool)
    (hRes : ∀ inv, env.Resubscribe (env.Resubscribe inv) = env.Resubscribe inv) :
    let once := closeCurrentWindow env p b1
    let twice := closeCurrentWindow env once.1 b2
    twice.1 = once.1 ∧
      once.1.curWindow = none ∧ once.1.remoteInv = none ∧
      twice.2 = [Event.inventoryResubscribe] := by
  intro once twice
  obtain ⟨hc, hr, _, _⟩ := closeCurrentWindow_fields env p b1
  have hinv : ∃ x, once.1.inventory = env.Resubscribe x := by
    show ∃ x, (closeCurrentWindow env p b1).1.inventory = env.Resubscribe x
    unfold closeCurrentWindow
    exact ⟨_, rfl⟩
  obtain ⟨x, hx⟩ := hinv
  have htw : twice = ({ once.1 with inventory := env.Resubscribe once.1.inventory },
      [Event.inventoryResubscribe]) := by
    show closeCurrentWindow env once.1 b2 = _
    have hc1 : once.1.curWindow = none := hc
    have hr1 : once.1.remoteInv = none := hr
    unfold closeCurrentWindow
    simp [hc1, hr1]
  refine ⟨?_, hc, hr, ?_⟩
  · rw [htw]
    show ({ once.1 with inventory := env.Resubscribe once.1.inventory } : Player σ) = once.1
    rw [hx, hRes, ← hx]
  · rw [htw]

theorem closeCurrentWindow_idempotent_witness :
    (∀ inv, tinyEnv.Resubscribe (tinyEnv.Resubscribe inv) = tinyEnv.Resubscribe inv) ∧
      (closeCurrentWindow tinyEnv (closeCurrentWindow tinyEnv tinyPlayerOpen true).1 false).2 =
        [Event.inventoryResubscribe] :=
  ⟨fun _ => rfl,
    (closeCurrentWindow_idempotent tinyEnv tinyPlayerOpen true false (fun _ => rfl)).2.2.2⟩

/-- C17: in every player state reached from `NewPlayer` by serialised calls,
among them `reqInventorySubscribed`, `reqInventoryUnsubscribed`,
`PacketWindowClose` and `closeCurrentWindow`, `curWindow` is present exactly
when `remoteInv` is. -/
theorem curWindow_iff_remoteInv (env : Env σ) (p : Player σ) (trace : List (Event σ))
    (hReach : Reachable env p trace) :
    (p.curWindow ≠ none ↔ p.remoteInv ≠ none) ∧
      p.curWindow.isSome = p.remoteInv.isSome := by
  have h := (Reachable_inv env p trace hReach).1
  refine ⟨?_, h⟩
  cases hw : p.curWindow <;> cases hr : p.remoteInv <;> simp [hw, hr] at h ⊢

theorem curWindow_iff_remoteInv_witness :
    Reachable tinyEnv tinyPlayerAtBench.1 tinyPlayerAtBench.2 ∧
      tinyPlayerAtBench.1.curWindow ≠ none ∧ tinyPlayerAtBench.1.remoteInv ≠ none :=
  have hReach : Reachable tinyEnv tinyPlayerAtBench.1 tinyPlayerAtBench.2 :=
    ⟨7, tinyItemTypes, "p", ⟨(0 : Int), (0 : Int), (0 : Int)⟩,
      [Call.reqInventorySubscribed ⟨1, 2, 3⟩ 1 []], rfl⟩
  ⟨hReach, by decide,
    (curWindow_iff_remoteInv tinyEnv tinyPlayerAtBench.1 tinyPlayerAtBench.2 hReach).1.mp
      (by decide)⟩

/-! ### The outbound loop -/

theorem firstFailure_succ (conn : Nat → WriteResult) (m : Nat) :
    firstFailure conn (m + 1) =
      if conn 0 ≠ WriteResult.ok then some 0
      else (firstFailure (fun i => conn (i + 1)) m).map Nat.succ := by
  unfold firstFailure
  rw [List.range_succ_eq_map, List.find?_cons]
  by_cases h0 : conn 0 = WriteResult.ok
  · simp only [h0, ne_eq, not_true_eq_false, decide_False, if_false, List.find?_map]
    rfl
  · simp [h0]

theorem beforeSentinel_cons_some (bs : List (Written σ))
    (rest : List (Option (List (Written σ)))) :
    beforeSentinel (some bs :: rest) = bs :: beforeSentinel rest := by
  simp [beforeSentinel, List.takeWhile_cons]

theorem writesBySpec_cons_some (conn : Nat → WriteResult) (bs : List (Written σ))
    (rest : List (Option (List (Written σ)))) :
    writesBySpec conn (some bs :: rest) =
      if conn 0 ≠ WriteResult.ok then [bs]
      else bs :: writesBySpec (fun i => conn (i + 1)) rest := by
  unfold writesBySpec
  rw [beforeSentinel_cons_some, List.length_cons, firstFailure_succ]
  by_cases h0 : conn 0 = WriteResult.ok
  · simp only [h0, ne_eq, not_true_eq_false, if_false]
    cases hf : firstFailure (fun i => conn (i + 1)) (beforeSentinel rest).length with
    | none => rfl
    | some i => simp
  · simp [h0]

theorem transmitLoop_writes (conn : Nat → WriteResult)
    (queue : List (Option (List (Written σ)))) :
    ∀ n, connWrites (transmitLoop conn n queue : List (Event σ) × Bool).1 =
      writesBySpec (fun i => conn (n + i)) queue := by
  induction queue with
  | nil =>
    intro n
    simp [transmitLoop, connWrites, writesBySpec, beforeSentinel, firstFailure]
  | cons x rest ih =>
    intro n
    cases x with
    | none => simp [transmitLoop, connWrites, writesBySpec, beforeSentinel, firstFailure]
    | some bs =>
      rw [writesBySpec_cons_some]
      have hshift : (fun i => conn (n + (i + 1))) = (fun i => conn (n + 1 + i)) := by
        funext i
        congr 1
        omega
      cases hc : conn n with
      | ok =>
        simp only [transmitLoop, hc, connWrites, Nat.add_zero, ne_eq, not_true_eq_false,
          if_false]
        rw [ih (n + 1), hshift]
      | EOF => simp [transmitLoop, hc, connWrites]
      | failed => simp [transmitLoop, hc, connWrites]

/-- C14: whatever the payloads on `txQueue` and whatever the results of the
writes, `transmitLoop` writes to the connection exactly the payloads that
precede the first nil payload, in queue order and each once, stopping after
the first write that fails; and `TransmitPacket` never puts the nil sentinel
on the queue: what it puts is the packet it was given, when that is not nil. -/
theorem transmitLoop_order_and_sentinel (conn : Nat → WriteResult)
    (queue : List (Option (List (Written σ)))) (packet : Option (List (Written σ))) :
    connWrites (transmitLoop conn 0 queue : List (Event σ) × Bool).1 = writesBySpec conn queue ∧
      (Event.txQueueSend none : Event σ) ∉ TransmitPacket packet ∧
      transmitted (TransmitPacket packet) = packet.toList.map some := by
  refine ⟨?_, ?_, ?_⟩
  · have h := transmitLoop_writes conn queue 0
    simpa using h
  · cases packet <;> simp [TransmitPacket]
  · cases packet <;> simp [TransmitPacket, transmitted]

theorem transmitLoop_example :
    connWrites (transmitLoop (fun n => if n = 1 then WriteResult.failed else WriteResult.ok) 0
        [some [Written.chatMessage "a"], some [Written.chatMessage "b"],
          some [Written.chatMessage "c"], none] : List (Event tinyTypes) × Bool).1
      = [[Written.chatMessage "a"], [Written.chatMessage "b"]] ∧
    connWrites (transmitLoop (fun _ => WriteResult.ok) 0
        [some [Written.chatMessage "a"], none, some [Written.chatMessage "c"]] :
        List (Event tinyTypes) × Bool).1
      = [[Written.chatMessage "a"]] :=
  ⟨rfl, rfl⟩

/-! ### Window ids -/

theorem wrapInt8_of_fits (n : Int) (hlo : -128 ≤ n) (hhi : n ≤ 127) : wrapInt8 n = n := by
  unfold wrapInt8
  omega

theorem beforeOpen_fields (env : Env σ) (p : Player σ) :
    (beforeOpen env p).nextWindowId = p.nextWindowId ∧
      (beforeOpen env p).chunkSubs = p.chunkSubs := by
  unfold beforeOpen
  cases hr : p.remoteInv with
  | none => exact ⟨rfl, rfl⟩
  | some ri =>
    obtain ⟨_, _, hn, hs⟩ := closeCurrentWindow_fields env p true
    exact ⟨hn, hs⟩

theorem beforeOpen_none (env : Env σ) (p : Player σ) (hr : p.remoteInv = none) :
    beforeOpen env p = p := by
  simp [beforeOpen, hr]

theorem beforeOpen_some (env : Env σ) (p : Player σ) (ri : σ.RemoteInventory)
    (hr : p.remoteInv = some ri) : beforeOpen env p = (closeCurrentWindow env p true).1 := by
  simp [beforeOpen, hr]

theorem reqInventorySubscribed_unfold (env : Env σ) (p : Player σ) (block : BlockXyz)
    (invTypeId : InvTypeId) (slots : List WindowSlot) :
    Event.newWindow invTypeId p.nextWindowId (env.NewRemoteInventory block p.chunkSubs slots)
        (env.NewWindow (beforeOpen env p).inventory invTypeId p.nextWindowId
          (env.NewRemoteInventory block p.chunkSubs slots)).1
        ∈ (reqInventorySubscribed env p block invTypeId slots).2 ∧
      ((env.NewWindow (beforeOpen env p).inventory invTypeId p.nextWindowId
          (env.NewRemoteInventory block p.chunkSubs slots)).1 ≠ none →
        (reqInventorySubscribed env p block invTypeId slots).1.curWindow =
          (env.NewWindow (beforeOpen env p).inventory invTypeId p.nextWindowId
            (env.NewRemoteInventory block p.chunkSubs slots)).1) ∧
      (reqInventorySubscribed env p block invTypeId slots).1.nextWindowId =
        (match (env.NewWindow (beforeOpen env p).inventory invTypeId p.nextWindowId
            (env.NewRemoteInventory block p.chunkSubs slots)).1 with
          | none => p.nextWindowId
          | some _ =>
            if p.nextWindowId ≥ env.WindowIdFreeMax then env.WindowIdFreeMin
            else wrapInt8 (p.nextWindowId + 1)) := by
  obtain ⟨hc, _, hn, hs⟩ := closeCurrentWindow_fields env p true
  cases hr : p.remoteInv with
  | none =>
    rw [beforeOpen_none env p hr]
    unfold reqInventorySubscribed
    simp only [hr]
    cases hnw : (env.NewWindow p.inventory invTypeId p.nextWindowId
      (env.NewRemoteInventory block p.chunkSubs slots)).1 with
    | none => simp [hnw, hr] 
    | some w => simp [hnw]
  | some ri =>
    rw [beforeOpen_some env p ri hr]
    unfold reqInventorySubscribed
    simp only [hr, hn, hs]
    cases hnw : (env.NewWindow (closeCurrentWindow env p true).1.inventory invTypeId
      p.nextWindowId (env.NewRemoteInventory block p.chunkSubs slots)).1 with
    | none => simp [hnw, hc, hn]
    | some w => simp [hnw, hn]

theorem next_fits (lo hi n : Int) (hLo : -128 ≤ lo) (hHi : hi ≤ 127) (h1 : lo ≤ n)
    (h2 : n < hi) : wrapInt8 (n + 1) = n + 1 ∧ lo ≤ n + 1 ∧ n + 1 ≤ hi := by
  unfold wrapInt8
  omega

theorem step_nextWindowId (env : Env σ) (p : Player σ) (c : Call σ)
    (hc : ∀ block invTypeId slots, c ≠ Call.reqInventorySubscribed block invTypeId slots) :
    (step env p c).1.nextWindowId = p.nextWindowId := by
  cases c with
  | PacketPlayerPosition position stance onGround =>
    simp only [step, PacketPlayerPosition]
    split <;> rfl
  | PacketWindowClose windowId => exact (closeCurrentWindow_fields env p false).2.2.1
  | PacketWindowClick windowId slotId rightClick txId shiftClick expectedSlot =>
    exact (PacketWindowClick_fields env p windowId slotId rightClick txId shiftClick
      expectedSlot).2.2.1
  | reqInventorySubscribed block invTypeId slots => exact absurd rfl (hc block invTypeId slots)
  | reqInventoryUnsubscribed block =>
    simp only [step, reqInventoryUnsubscribed]
    cases hri : p.remoteInv with
    | none => rfl
    | some ri =>
      simp only []
      split
      · exact (closeCurrentWindow_fields env p true).2.2.1
      · rfl
  | closeCurrentWindow b => exact (closeCurrentWindow_fields env p b).2.2.1
  | PacketPlayerLook look onGround => rfl
  | PacketPlayerBlockHit status target face =>
    simp only [step, PacketPlayerBlockHit]
    split <;> rfl
  | PacketPlayerBlockInteract itemId target face amount uses =>
    simp only [step, PacketPlayerBlockInteract]
    split
    · rfl
    · split <;> rfl
  | PacketHoldingChange slotId => rfl
  | PacketDisconnect reason => rfl
  | reqInventorySlotUpdate block slot slotId =>
    simp only [step, reqInventorySlotUpdate]
    cases hri : p.remoteInv with
    | none => rfl
    | some ri => simp only []; split <;> rfl
  | reqInventoryProgressUpdate block prgBarId value =>
    simp only [step, reqInventoryProgressUpdate]
    cases hri : p.remoteInv with
    | none => rfl
    | some ri => simp only []; split <;> rfl
  | reqInventoryCursorUpdate block cursor =>
    simp only [step, reqInventoryCursorUpdate]
    cases hri : p.remoteInv with
    | none => rfl
    | some ri => simp only []; split <;> rfl
  | reqInventoryTxState block txId accepted =>
    simp only [step, reqInventoryTxState]
    cases hri : p.remoteInv with
    | none => rfl
    | some ri =>
      simp only []
      split
      · cases hw : p.curWindow <;> rfl
      · rfl
  | reqPlaceHeldItem target wasHeld =>
    simp only [step, reqPlaceHeldItem]
    split
    · rfl
    · split <;> rfl
  | reqOfferItem fromChunk entityId item =>
    simp only [step, reqOfferItem]
    split
    · split <;> rfl
    · rfl
  | reqGiveItem atPosition item =>
    simp only [step, reqGiveItem]
    split
    · split <;> rfl
    · rfl

theorem step_WindowIdFree (env : Env σ) (p : Player σ) (c : Call σ)
    (hOrder : env.WindowIdFreeMin ≤ env.WindowIdFreeMax) (hLo : -128 ≤ env.WindowIdFreeMin)
    (hHi : env.WindowIdFreeMax ≤ 127) (h : WindowIdFree env p.nextWindowId) :
    WindowIdFree env (step env p c).1.nextWindowId := by
  by_cases hc : ∃ block invTypeId slots, c = Call.reqInventorySubscribed block invTypeId slots
  · obtain ⟨block, invTypeId, slots, rfl⟩ := hc
    have hu := (reqInventorySubscribed_unfold env p block invTypeId slots).2.2
    show WindowIdFree env (reqInventorySubscribed env p block invTypeId slots).1.nextWindowId
    rw [hu]
    obtain ⟨h1, h2⟩ := h
    split
    · exact ⟨h1, h2⟩
    · split
      · exact ⟨le_refl _, hOrder⟩
      · rename_i hlt
        obtain ⟨hw, h3, h4⟩ := next_fits env.WindowIdFreeMin env.WindowIdFreeMax
          p.nextWindowId hLo hHi h1 (lt_of_not_ge hlt)
        rw [hw]
        exact ⟨h3, h4⟩
  · rw [step_nextWindowId env p c (fun b i s hcs => hc ⟨b, i, s, hcs⟩)]
    exact h

theorem run_WindowIdFree (env : Env σ) (calls : List (Call σ))
    (hOrder : env.WindowIdFreeMin ≤ env.WindowIdFreeMax) (hLo : -128 ≤ env.WindowIdFreeMin)
    (hHi : env.WindowIdFreeMax ≤ 127) :
    ∀ p : Player σ, WindowIdFree env p.nextWindowId →
      WindowIdFree env (run env p calls).1.nextWindowId := by
  induction calls with
  | nil => intro p h; exact h
  | cons c cs ih =>
    intro p h
    exact ih (step env p c).1 (step_WindowIdFree env p c hOrder hLo hHi h)

/-- C18: with `WindowIdFreeMin <= WindowIdFreeMax`, both window ids of 8 bits,
every player state reached from `NewPlayer` has `nextWindowId` between the
two.  `reqInventorySubscribed` calls `NewWindow` with the `nextWindowId` of the
state before the call; when a window comes back `nextWindowId` becomes that
value plus one, or `WindowIdFreeMin` when that value was `WindowIdFreeMax`;
when nil comes back `nextWindowId` stays as it was. -/
theorem nextWindowId_in_range (env : Env σ) (p : Player σ) (trace : List (Event σ))
    (block : BlockXyz) (invTypeId : InvTypeId) (slots : List WindowSlot)
    (hOrder : env.WindowIdFreeMin ≤ env.WindowIdFreeMax) (hLo : -128 ≤ env.WindowIdFreeMin)
    (hHi : env.WindowIdFreeMax ≤ 127) (hReach : Reachable env p trace) :
    (env.WindowIdFreeMin ≤ p.nextWindowId ∧ p.nextWindowId ≤ env.WindowIdFreeMax) ∧
      (let newInv := env.NewRemoteInventory block p.chunkSubs slots
       let created := (env.NewWindow (beforeOpen env p).inventory invTypeId p.nextWindowId
         newInv).1
       let out := reqInventorySubscribed env p block invTypeId slots
       Event.newWindow invTypeId p.nextWindowId newInv created ∈ out.2 ∧
        (created ≠ none → out.1.curWindow = created) ∧
        (created ≠ none →
          out.1.nextWindowId =
            if p.nextWindowId = env.WindowIdFreeMax then env.WindowIdFreeMin
            else p.nextWindowId + 1) ∧
        (created = none → out.1.nextWindowId = p.nextWindowId)) := by
  have hrange : WindowIdFree env p.nextWindowId := by
    obtain ⟨entityId, itemTypes, name, position, calls, hrun⟩ := hReach
    have h0 : WindowIdFree env (NewPlayer env entityId itemTypes name position).nextWindowId :=
      ⟨le_refl _, hOrder⟩
    have := run_WindowIdFree env calls hOrder hLo hHi _ h0
    rw [hrun] at this
    exact this
  refine ⟨hrange, ?_⟩
  intro newInv created out
  obtain ⟨hmem, hcur, hnext⟩ := reqInventorySubscribed_unfold env p block invTypeId slots
  refine ⟨hmem, hcur, ?_, ?_⟩
  · intro hsome
    have hnext1 : out.1.nextWindowId = _ := hnext
    rw [hnext1]
    cases hcr : created with
    | none => exact absurd hcr hsome
    | some w =>
      have hcr1 : (env.NewWindow (beforeOpen env p).inventory invTypeId p.nextWindowId
        newInv).1 = some w := hcr
      simp only [hcr1]
      obtain ⟨h1, h2⟩ := hrange
      by_cases heq : p.nextWindowId = env.WindowIdFreeMax
      · rw [if_pos (ge_of_eq heq), if_pos heq]
      · have hlt : p.nextWindowId < env.WindowIdFreeMax := lt_of_le_of_ne h2 heq
        rw [if_neg (not_le_of_lt hlt), if_neg heq]
        exact (next_fits env.WindowIdFreeMin env.WindowIdFreeMax p.nextWindowId hLo hHi h1
          hlt).1
  · intro hnone
    have hnext1 : out.1.nextWindowId = _ := hnext
    rw [hnext1]
    have hcr1 : (env.NewWindow (beforeOpen env p).inventory invTypeId p.nextWindowId
      newInv).1 = none := hnone
    simp only [hcr1]

theorem nextWindowId_in_range_witness :
    tinyEnv.WindowIdFreeMin ≤ tinyEnv.WindowIdFreeMax ∧ -128 ≤ tinyEnv.WindowIdFreeMin ∧
      tinyEnv.WindowIdFreeMax ≤ 127 ∧
      Reachable tinyEnv tinyPlayerAtBench.1 tinyPlayerAtBench.2 ∧
      (tinyEnv.WindowIdFreeMin ≤ tinyPlayerAtBench.1.nextWindowId ∧
        tinyPlayerAtBench.1.nextWindowId ≤ tinyEnv.WindowIdFreeMax) ∧
      tinyPlayerAtBench.1.nextWindowId = 2 ∧
      (reqInventorySubscribed tinyEnv tinyPlayerAtBench.1 ⟨4, 5, 6⟩ 1 []).1.nextWindowId = 3 ∧
      (reqInventorySubscribed tinyEnv tinyPlayerAtBench.1 ⟨4, 5, 6⟩ 7 []).1.nextWindowId = 2 :=
  have hReach : Reachable tinyEnv tinyPlayerAtBench.1 tinyPlayerAtBench.2 :=
    ⟨7, tinyItemTypes, "p", ⟨(0 : Int), (0 : Int), (0 : Int)⟩,
      [Call.reqInventorySubscribed ⟨1, 2, 3⟩ 1 []], rfl⟩
  ⟨by decide, by decide, by decide, hReach,
    (nextWindowId_in_range tinyEnv tinyPlayerAtBench.1 tinyPlayerAtBench.2 ⟨4, 5, 6⟩ 1 []
      (by decide) (by decide) (by decide) hReach).1,
    rfl,
    (nextWindowId_in_range tinyEnv tinyPlayerAtBench.1 tinyPlayerAtBench.2 ⟨4, 5, 6⟩ 1 []
      (by decide) (by decide) (by decide) hReach).2.2.2.1 (by decide),
    (nextWindowId_in_range tinyEnv tinyPlayerAtBench.1 tinyPlayerAtBench.2 ⟨4, 5, 6⟩ 7 []
      (by decide) (by decide) (by decide) hReach).2.2.2.2 (by decide)⟩

end player

end Chunkymonkey
